import Mathlib

/-!
Shallow embedding of the MENTICS Path & Progression Engine (app.py, dbhelper.py).

The sqlite database (accessed through `DatabaseHandler` in dbhelper.py) is
modelled as lists of rows, one list per table, with per-table autoincrement
counters.  `db.select(table, where=...)` is `List.filter`, `db.insert` appends
a row carrying the current counter as its id, `db.update(table, data, where)`
is `List.map` with a conditional field change — exactly the SQL each helper
emits.  sqlite timestamps and Python `date` values are modelled as natural
numbers (day ordinals for dates, abstract monotone markers for timestamps).
JSON-encoded columns (`options`, activity `details`) are modelled by their
decoded values, since the code always round-trips them through
`json.dumps`/`json.loads`.
-/

namespace Mentics

/-- A row of the `paths` table (task store), fields as created by `init_db`. -/
structure PathRow where
  id : Nat
  user_id : Nat
  task_order : Nat
  description : String
  is_completed : Bool
  is_active : Bool
  created_at : Nat
  ttype : String
  stat_to_update : Option String
  category : String
  due_date : Option String
  is_user_added : Bool
  reason : String
  task_format : String
  task_content_id : Option Nat
deriving Repr, DecidableEq, Inhabited

/-- A row of the `subtasks` table. -/
structure SubtaskRow where
  id : Nat
  parent_task_id : Nat
  description : String
  is_completed : Bool
deriving Repr, DecidableEq, Inhabited

/-- A row of the `quizzes` table. -/
structure QuizRow where
  id : Nat
  task_id : Nat
  title : String
deriving Repr, DecidableEq, Inhabited

/-- A row of the `quiz_questions` table; `options` models the JSON-encoded
ordered option list. -/
structure QuizQuestionRow where
  id : Nat
  quiz_id : Nat
  question_text : String
  options : List String
  correct_option : Nat
  explanation : String
deriving Repr, DecidableEq, Inhabited

/-- A row of the `gamification_stats` table (`user_id` is the primary key).
`last_completed_date` is the ISO date stored as a day ordinal, NULL as
`none`. -/
structure GamificationRow where
  user_id : Nat
  points : Nat
  current_streak : Nat
  last_completed_date : Option Nat
deriving Repr, DecidableEq, Inhabited

/-- A row of the `activity_log` table; `details` models the JSON-encoded dict
of string fields passed to `log_activity`. -/
structure ActivityRow where
  id : Nat
  user_id : Nat
  activity_type : String
  details : List (String × String)
deriving Repr, DecidableEq, Inhabited

/-- The database state: one list of rows per table plus per-table
autoincrement counters (sqlite assigns `lastrowid` = next counter).
`users` records the existing user ids (the only aspect of the `users` table
the modelled operations inspect). -/
structure DB where
  users : List Nat
  paths : List PathRow
  subtasks : List SubtaskRow
  quizzes : List QuizRow
  quiz_questions : List QuizQuestionRow
  gamification_stats : List GamificationRow
  activity_log : List ActivityRow
  next_path_id : Nat
  next_subtask_id : Nat
  next_quiz_id : Nat
  next_question_id : Nat
  next_activity_id : Nat
deriving Repr, DecidableEq, Inhabited

/-- `log_activity(user_id, activity_type, details)` (app.py): inserts one
`activity_log` row. -/
def logActivity (db : DB) (user_id : Nat) (activity_type : String)
    (details : List (String × String)) : DB :=
  { db with
    activity_log := db.activity_log ++
      [{ id := db.next_activity_id, user_id := user_id,
         activity_type := activity_type, details := details }],
    next_activity_id := db.next_activity_id + 1 }

/-- Character-level lowercase of a Python string (`str.lower`), restricted to
the ASCII alphabet actually used by the compared literals. -/
def lowerChars (s : String) : List Char :=
  s.data.map Char.toLower

/-- Does `needle` occur at the head of `hay`?  (Auxiliary for Python's
substring test.) -/
def charsMatchAt : List Char → List Char → Bool
  | [], _ => true
  | _ :: _, [] => false
  | a :: as, b :: bs => a == b && charsMatchAt as bs

/-- Python's `needle in hay` substring test on character lists. -/
def charsContain (needle : List Char) : List Char → Bool
  | [] => charsMatchAt needle []
  | b :: bs => charsMatchAt needle (b :: bs) || charsContain needle bs

/-- The test `"boss battle" in description.lower()` of
`api_update_task_status` (app.py line 1634). -/
def descriptionMentionsBossBattle (description : String) : Bool :=
  charsContain ("boss battle".data) (lowerChars description)

/-- The points computation of `api_update_task_status` (app.py lines
1632-1635): `points_to_add = 25 if task_type == 'milestone' else 10`, then
overridden to 100 when the lowercased description contains `"boss battle"`. -/
def points_to_add (task_type : String) (description : String) : Nat :=
  let base := if task_type == "milestone" then 25 else 10
  if descriptionMentionsBossBattle description then 100 else base

/-- The points rule as the specification words it (for comparison with
`points_to_add`): award 100 exactly when the description *begins with* the
literal marker `"Boss Battle:"` case-insensitively, else 25 for a milestone,
else 10. -/
def spec_points_rule (task_type description : String) : Nat :=
  if charsMatchAt ("boss battle:".data) (lowerChars description) then 100
  else if task_type == "milestone" then 25
  else 10

/-- `POST /api/update_task_status` (app.py lines 1609-1669).
`taskId` is the JSON field (absent/null = `none`); the Python guard
`if status == 'complete' and task_id:` treats `0` as falsy.  The result is
`none` when the handler raises (IndexError on a missing
`gamification_stats` row, which Flask turns into a 500), otherwise
`some (new state, success flag)` — the handler always returns
`{"success": True}`. -/
def api_update_task_status (db : DB) (user_id : Nat) (status : String)
    (taskId : Option Nat) (today : Nat) : Option (DB × Bool) :=
  match taskId with
  | none => some (db, true)
  | some tid =>
    if status == "complete" && tid != 0 then
      match db.paths.filter (fun r => r.id == tid && r.user_id == user_id) with
      | [] => some (db, true)
      | t :: _ =>
        if t.is_completed then some (db, true)
        else
          let db1 : DB := { db with
            paths := db.paths.map (fun r =>
              if r.id == tid && r.user_id == user_id then
                { r with is_completed := true } else r) }
          let db2 := logActivity db1 user_id "task_completed"
            [("description", t.description), ("category", t.category)]
          let pts := points_to_add t.ttype t.description
          match db2.gamification_stats.filter (fun g => g.user_id == user_id) with
          | [] => none
          | g :: _ =>
            let new_streak :=
              match g.last_completed_date with
              | some d =>
                if d == today then g.current_streak
                else if d + 1 == today then g.current_streak + 1
                else 1
              | none => 1
            some ({ db2 with
              gamification_stats := db2.gamification_stats.map (fun gr =>
                if gr.user_id == user_id then
                  { gr with points := gr.points + pts,
                            current_streak := new_streak,
                            last_completed_date := some today }
                else gr) }, true)
    else some (db, true)

/-- The `points` column of the caller's `gamification_stats` row (first row
returned by `db.select`), if any. -/
def user_points (db : DB) (user_id : Nat) : Option Nat :=
  match db.gamification_stats.filter (fun g => g.user_id == user_id) with
  | [] => none
  | g :: _ => some g.points

/-- The caller's full `gamification_stats` row (first row returned by
`db.select`), if any. -/
def user_gam_row (db : DB) (user_id : Nat) : Option GamificationRow :=
  match db.gamification_stats.filter (fun g => g.user_id == user_id) with
  | [] => none
  | g :: _ => some g

/-- One question of a quiz declared by the external collaborator
(`quiz_content.questions[i]` in the JSON schema of
`_get_test_prep_ai_tasks`). -/
structure GenQuizQuestion where
  question_text : String
  options : List String
  correct_option : Nat
  explanation : String
deriving Repr, DecidableEq, Inhabited

/-- The `quiz_content` object of a generated task. -/
structure GenQuizContent where
  title : String
  questions : List GenQuizQuestion
deriving Repr, DecidableEq, Inhabited

/-- A Test-Prep task proposed by the external collaborator (or by the mock
generator), per the JSON schema of `_get_test_prep_ai_tasks`. -/
structure GenTask where
  task_format : String
  description : String
  reason : String
  ttype : String
  stat_to_update : Option String
  category : String
  difficulty : String
  quiz_content : Option GenQuizContent
deriving Repr, DecidableEq, Inhabited

/-- Python's `random.sample(population, k)`: raises
`ValueError("Sample larger than population or is negative")` when
`k > len(population)`; otherwise returns `k` distinct elements.  The random
permutation is not modelled — the sample is taken as the first `k`
elements, which is sound for every property proved here (the claims only
depend on the sample's size and on membership in the population). -/
def random_sample {α : Type} (population : List α) (k : Nat) :
    Except String (List α) :=
  if k ≤ population.length then Except.ok (population.take k)
  else Except.error "Sample larger than population or is negative"

/-- The hardcoded mock `milestone` task of `get_mock_tasks_reliably`
(app.py lines 329-330). -/
def mock_boss_task : GenTask :=
  { task_format := "link",
    description := "Take a full-length, timed SAT practice test from the [official College Board site](https://satsuite.collegeboard.org/sat/practice-preparation/practice-tests).",
    reason := "This is a 'boss battle' to test your skills under pressure.",
    ttype := "milestone", stat_to_update := some "sat_total",
    category := "Test Prep", difficulty := "hard", quiz_content := none }

/-- The hardcoded mock quiz task of `get_mock_tasks_reliably`
(app.py lines 313-327). -/
def mock_quiz_task : GenTask :=
  { task_format := "quiz",
    description := "Take a 5-question mini-quiz on SAT Algebra.",
    reason := "This quick quiz will test your core algebra skills, a critical component of the SAT Math section.",
    ttype := "standard", stat_to_update := none,
    category := "Test Prep", difficulty := "medium",
    quiz_content := some
      { title := "SAT Algebra Practice",
        questions :=
          [{ question_text := "If 3x - 7 = 5, what is the value of x?",
             options := ["2", "3", "4", "5"], correct_option := 2,
             explanation := "Add 7 to both sides to get 3x = 12. Then, divide by 3 to find x = 4." },
           { question_text := "Which of the following is equivalent to (2x + 3)(x - 1)?",
             options := ["2x^2 + x - 3", "2x^2 - x - 3", "2x^2 + 5x + 3", "x^2 + 2x - 3"],
             correct_option := 0,
             explanation := "Use the FOIL method to get 2x^2 + x - 3." }] } }

/-- The hardcoded Khan-Academy mock task (app.py lines 334-335). -/
def mock_khan_task : GenTask :=
  { task_format := "link",
    description := "Review algebra concepts using [Khan Academy](https://www.khanacademy.org/math/algebra).",
    reason := "A strong algebra foundation is crucial.",
    ttype := "standard", stat_to_update := none,
    category := "Test Prep", difficulty := "medium", quiz_content := none }

/-- The hardcoded time-management mock task (app.py lines 336-337). -/
def mock_timing_task : GenTask :=
  { task_format := "link",
    description := "Practice time management for the reading section.",
    reason := "Pacing is key to finishing on time.",
    ttype := "standard", stat_to_update := none,
    category := "Test Prep", difficulty := "medium", quiz_content := none }

/-- `get_mock_tasks_reliably` inside `_get_test_prep_ai_tasks`
(app.py lines 311-338): `random.sample(all_mock_tasks, 2)` over the
two-element list `[boss, quiz]`, concatenated with `random.sample([...], 3)`
over a TWO-element list — the second call's `k` exceeds its population. -/
def get_mock_tasks_reliably : Except String (List GenTask) :=
  match random_sample [mock_boss_task, mock_quiz_task] 2 with
  | Except.error e => Except.error e
  | Except.ok a =>
    match random_sample [mock_khan_task, mock_timing_task] 3 with
    | Except.error e => Except.error e
    | Except.ok b => Except.ok (a ++ b)

/-- Outcome of the round trip to the external collaborator inside
`_get_test_prep_ai_tasks`: `unavailable` = `GEMINI_API_KEY` unset;
`failure` = any transport error, timeout, JSON parse error or a `tasks`
field that is not a list (all reach `except Exception`); `responded ts` =
the parsed `tasks` list (`response_data.get("tasks", [])`, so an absent
field is `responded []`). -/
inductive AIOutcome where
  | unavailable : AIOutcome
  | failure : AIOutcome
  | responded : List GenTask → AIOutcome
deriving Repr, DecidableEq, Inhabited

/-- `_get_test_prep_ai_tasks` (app.py lines 308-449), with the prompt
construction (pure string work that does not affect the returned tasks)
elided: no API key → mock; a non-empty parsed list is returned as-is; an
empty or malformed response raises into `except`, which calls the mock. -/
def get_test_prep_ai_tasks : AIOutcome → Except String (List GenTask)
  | AIOutcome.unavailable => get_mock_tasks_reliably
  | AIOutcome.failure => get_mock_tasks_reliably
  | AIOutcome.responded tasks =>
    if tasks.length > 0 then Except.ok tasks else get_mock_tasks_reliably

/-- One element of the `saved_tasks` list built by
`_generate_and_save_new_test_path` (app.py lines 618-623); note it carries
no `due_date`, `is_user_added` or `subtasks` field. -/
structure SavedTask where
  id : Nat
  description : String
  reason : String
  ttype : String
  stat_to_update : Option String
  is_completed : Bool
  task_format : String
  task_content_id : Option Nat
deriving Repr, DecidableEq, Inhabited

/-- Loop body of `_generate_and_save_new_test_path` (app.py lines 574-623)
for one task at index `idx`: a quiz-declaring task gets a `paths` row, a
`quizzes` row, the back-link `task_content_id` update and one
`quiz_questions` row per question; anything else gets a plain link row.
The saved dict is rebuilt from a fresh `db.select` on the new row. -/
def save_one_test_task (db : DB) (user_id now idx : Nat) (task : GenTask) :
    DB × SavedTask :=
  let isQuiz := task.task_format == "quiz" && task.quiz_content.isSome
  let task_id := db.next_path_id
  let baseRow : PathRow :=
    { id := task_id, user_id := user_id, task_order := idx + 1,
      description := task.description, is_completed := false,
      is_active := true, created_at := now, ttype := task.ttype,
      stat_to_update := task.stat_to_update, category := "Test Prep",
      due_date := none, is_user_added := false, reason := task.reason,
      task_format := if isQuiz then "quiz" else "link",
      task_content_id := none }
  let db1 : DB := { db with paths := db.paths ++ [baseRow],
                            next_path_id := task_id + 1 }
  let db2 : DB :=
    match task.quiz_content with
    | some qc =>
      if task.task_format == "quiz" then
        let quiz_id := db1.next_quiz_id
        let dbq : DB := { db1 with
          quizzes := db1.quizzes ++ [{ id := quiz_id, task_id := task_id,
                                       title := qc.title }],
          next_quiz_id := quiz_id + 1 }
        let dbq : DB := { dbq with
          paths := dbq.paths.map (fun r =>
            if r.id == task_id then { r with task_content_id := some quiz_id }
            else r) }
        qc.questions.foldl (fun d q =>
          { d with
            quiz_questions := d.quiz_questions ++
              [{ id := d.next_question_id, quiz_id := quiz_id,
                 question_text := q.question_text, options := q.options,
                 correct_option := q.correct_option,
                 explanation := q.explanation }],
            next_question_id := d.next_question_id + 1 }) dbq
      else db1
    | none => db1
  let new_task_data :=
    (db2.paths.filter (fun r => r.id == task_id)).headD default
  (db2,
   { id := new_task_data.id, description := new_task_data.description,
     reason := new_task_data.reason, ttype := new_task_data.ttype,
     stat_to_update := new_task_data.stat_to_update, is_completed := false,
     task_format := new_task_data.task_format,
     task_content_id := new_task_data.task_content_id })

/-- The `for i, task in enumerate(tasks)` loop of
`_generate_and_save_new_test_path`, threading the database. -/
def save_test_tasks (user_id now : Nat) :
    DB → Nat → List GenTask → DB × List SavedTask
  | db, _, [] => (db, [])
  | db, i, t :: ts =>
    let p := save_one_test_task db user_id now i t
    let q := save_test_tasks user_id now p.1 (i + 1) ts
    (q.1, p.2 :: q.2)

/-- The `db.update("paths", {"is_active": False}, where={user, category,
is_active:True})` statement that starts every regeneration. -/
def deactivate_paths (db : DB) (user_id : Nat) (category : String) : DB :=
  { db with paths := db.paths.map (fun r =>
      if r.user_id == user_id && r.category == category && r.is_active then
        { r with is_active := false }
      else r) }

/-- `_generate_and_save_new_test_path` (app.py lines 550-626).  The user
select, path history and stat history feed only the prompt and are elided.
The old generation is deactivated, then the collaborator (or mock) result is
capped to 5 tasks and persisted; a `ValueError` escaping
`get_mock_tasks_reliably` aborts the function after the deactivation, with
every already-committed statement kept (sqlite commits per statement). -/
def generate_and_save_new_test_path (db : DB) (user_id now : Nat)
    (ai : AIOutcome) : DB × Except String (List SavedTask) :=
  let db := deactivate_paths db user_id "Test Prep"
  match get_test_prep_ai_tasks ai with
  | Except.error e => (db, Except.error e)
  | Except.ok tasks =>
    let tasks := tasks.take 5
    let p := save_test_tasks user_id now db 0 tasks
    let dbl := logActivity p.1 user_id "path_generated"
      [("category", "Test Prep")]
    (dbl, Except.ok p.2)

/-- A sequence of Test-Prep regenerations, each with its collaborator
outcome and timestamp; the flag is `true` when every run completed without
an exception. -/
def run_test_regens (user_id : Nat) :
    DB → List (AIOutcome × Nat) → DB × Bool
  | db, [] => (db, true)
  | db, (ai, now) :: rest =>
    let p := generate_and_save_new_test_path db user_id now ai
    let q := run_test_regens user_id p.1 rest
    (q.1, (match p.2 with | Except.ok _ => true | Except.error _ => false) && q.2)

/-- A College-Planning task proposed by the collaborator or the college mock
generator; the college JSON schema has no `task_format`/`quiz_content`
field. -/
structure CGenTask where
  description : String
  reason : String
  ttype : String
  stat_to_update : Option String
  category : String
  difficulty : String
deriving Repr, DecidableEq, Inhabited

/-- The five hardcoded mock tasks of the College-Planning
`get_mock_tasks_reliably` (app.py lines 632-646); `random.sample(_, 5)` on
this five-element list always succeeds. -/
def college_mock_tasks : List CGenTask :=
  [{ description := "Research 5 colleges that match your interests.",
     reason := "Finding the right fit is the first step to a successful college experience.",
     ttype := "standard", stat_to_update := none,
     category := "College Planning", difficulty := "medium" },
   { description := "Write a rough draft of your Common App personal statement.",
     reason := "This is your chance to tell your story and show admissions officers who you are.",
     ttype := "milestone", stat_to_update := some "essay_progress",
     category := "College Planning", difficulty := "hard" },
   { description := "Update your GPA in your profile.",
     reason := "Keeping your academic information up-to-date is important for tracking your progress.",
     ttype := "milestone", stat_to_update := some "gpa",
     category := "College Planning", difficulty := "easy" },
   { description := "Request three letters of recommendation from teachers.",
     reason := "Strong letters of recommendation can make a big difference in your application.",
     ttype := "standard", stat_to_update := none,
     category := "College Planning", difficulty := "medium" },
   { description := "Create a spreadsheet to track application deadlines.",
     reason := "Staying organized is key to a stress-free application season.",
     ttype := "standard", stat_to_update := none,
     category := "College Planning", difficulty := "easy" }]

/-- Collaborator outcome for the College-Planning generator, mirroring
`AIOutcome`. -/
inductive CollegeAIOutcome where
  | unavailable : CollegeAIOutcome
  | failure : CollegeAIOutcome
  | responded : List CGenTask → CollegeAIOutcome
deriving Repr, DecidableEq, Inhabited

/-- `_get_college_planning_ai_tasks` (app.py lines 629-727): same fallback
structure as the Test-Prep generator, but its mock sample succeeds. -/
def get_college_planning_ai_tasks :
    CollegeAIOutcome → Except String (List CGenTask)
  | CollegeAIOutcome.unavailable => random_sample college_mock_tasks 5
  | CollegeAIOutcome.failure => random_sample college_mock_tasks 5
  | CollegeAIOutcome.responded tasks =>
    if tasks.length > 0 then Except.ok tasks
    else random_sample college_mock_tasks 5

/-- One element of the College-Planning `saved_tasks` list:
`{**task_data, "id": task_id, "is_completed": False}` (app.py line 844). -/
structure CSavedTask where
  task : CGenTask
  id : Nat
deriving Repr, DecidableEq, Inhabited

/-- `_generate_and_save_new_college_path` (app.py lines 807-853).  The whole
body is wrapped in `try/except` returning `[]` on any error: a missing user
raises before any write; after the mock fallback the task list is never
empty, so the remaining body cannot raise. -/
def generate_and_save_new_college_path (db : DB) (user_id now : Nat)
    (cai : CollegeAIOutcome) : DB × List CSavedTask :=
  if db.users.contains user_id then
    let db := deactivate_paths db user_id "College Planning"
    match get_college_planning_ai_tasks cai with
    | Except.error _ => (db, [])
    | Except.ok tasks =>
      let tasks := tasks.take 5
      let p := tasks.foldl (fun (acc : DB × List CSavedTask) t =>
        let task_id := acc.1.next_path_id
        let row : PathRow :=
          { id := task_id, user_id := user_id,
            task_order := acc.2.length + 1, description := t.description,
            is_completed := false, is_active := true, created_at := now,
            ttype := t.ttype, stat_to_update := t.stat_to_update,
            category := "College Planning", due_date := none,
            is_user_added := false, reason := t.reason,
            task_format := "link", task_content_id := none }
        ({ acc.1 with paths := acc.1.paths ++ [row],
                      next_path_id := task_id + 1 },
         acc.2 ++ [{ task := t, id := task_id }])) (db, [])
      let dbl := logActivity p.1 user_id "path_generated"
        [("category", "College Planning")]
      (dbl, p.2)
  else (db, [])

/-- JSON values, for stating response-shape properties of the HTTP
endpoints. -/
inductive JVal where
  | jnull : JVal
  | jbool : Bool → JVal
  | jnum : Nat → JVal
  | jstr : String → JVal
  | jarr : List JVal → JVal
  | jobj : List (String × JVal) → JVal
deriving Inhabited

/-- The keys of a JSON object (empty for non-objects). -/
def JVal.keys : JVal → List String
  | JVal.jobj l => l.map Prod.fst
  | _ => []

/-- A nullable string column serialized by `jsonify`. -/
def optStrJ : Option String → JVal
  | none => JVal.jnull
  | some s => JVal.jstr s

/-- A nullable integer column serialized by `jsonify`. -/
def optNatJ : Option Nat → JVal
  | none => JVal.jnull
  | some n => JVal.jnum n

/-- The subtask dicts built inside `api_tasks` (app.py lines 1552-1553). -/
def subtaskToJson (s : SubtaskRow) : JVal :=
  JVal.jobj [("id", JVal.jnum s.id), ("description", JVal.jstr s.description),
             ("is_completed", JVal.jbool s.is_completed)]

/-- The task dicts of the listing branch of `api_tasks` (app.py lines
1555-1567), with nested subtasks fetched per task. -/
def listingTaskToJson (db : DB) (r : PathRow) : JVal :=
  JVal.jobj
    [("id", JVal.jnum r.id),
     ("description", JVal.jstr r.description),
     ("reason", JVal.jstr r.reason),
     ("is_completed", JVal.jbool r.is_completed),
     ("type", JVal.jstr r.ttype),
     ("stat_to_update", optStrJ r.stat_to_update),
     ("due_date", optStrJ r.due_date),
     ("is_user_added", JVal.jbool r.is_user_added),
     ("subtasks", JVal.jarr
       ((db.subtasks.filter (fun s => s.parent_task_id == r.id)).map
         subtaskToJson)),
     ("task_format", JVal.jstr r.task_format),
     ("task_content_id", optNatJ r.task_content_id)]

/-- The task dicts returned by the Test-Prep generation branch
(app.py lines 618-623), serialized. -/
def savedTaskToJson (s : SavedTask) : JVal :=
  JVal.jobj
    [("id", JVal.jnum s.id),
     ("description", JVal.jstr s.description),
     ("reason", JVal.jstr s.reason),
     ("type", JVal.jstr s.ttype),
     ("stat_to_update", optStrJ s.stat_to_update),
     ("is_completed", JVal.jbool s.is_completed),
     ("task_format", JVal.jstr s.task_format),
     ("task_content_id", optNatJ s.task_content_id)]

/-- The task dicts returned by the College-Planning generation branch:
`{**task_data, "id": ..., "is_completed": False}` keeps the collaborator
dict's keys first, then appends `id` and `is_completed`. -/
def csavedTaskToJson (s : CSavedTask) : JVal :=
  JVal.jobj
    [("description", JVal.jstr s.task.description),
     ("reason", JVal.jstr s.task.reason),
     ("type", JVal.jstr s.task.ttype),
     ("stat_to_update", optStrJ s.task.stat_to_update),
     ("category", JVal.jstr s.task.category),
     ("difficulty", JVal.jstr s.task.difficulty),
     ("id", JVal.jnum s.id),
     ("is_completed", JVal.jbool false)]

/-- Largest `created_at` among a list of rows (the
`ORDER BY created_at DESC LIMIT 1` query of `api_tasks`), `none` when the
list is empty. -/
def latest_created_at : List PathRow → Option Nat
  | [] => none
  | r :: rs =>
    match latest_created_at rs with
    | none => some r.created_at
    | some m => some (max r.created_at m)

/-- The active generation fetched by `api_tasks` (app.py lines 1511-1528):
the active rows of the (user, category) pair carrying the latest
`created_at` marker. -/
def active_path_rows (db : DB) (user_id : Nat) (category : String) :
    List PathRow :=
  let actives := db.paths.filter (fun r =>
    r.user_id == user_id && r.category == category && r.is_active)
  match latest_created_at actives with
  | none => []
  | some ts => actives.filter (fun r => r.created_at == ts)

/-- The ordering key of `sorted(active_path, key=lambda x: x['task_order'])`. -/
def byTaskOrder (a b : PathRow) : Prop :=
  a.task_order ≤ b.task_order

instance : DecidableRel byTaskOrder :=
  fun a b => inferInstanceAs (Decidable (a.task_order ≤ b.task_order))

/-- Python's stable `sorted` by `task_order` (a stable sort with respect to
the `task_order` key). -/
def sort_by_task_order (l : List PathRow) : List PathRow :=
  List.insertionSort byTaskOrder l

/-- HTTP method of an `api_tasks` request. -/
inductive HttpMethod where
  | get : HttpMethod
  | post : HttpMethod
deriving Repr, DecidableEq, Inhabited

/-- `GET`/`POST /api/tasks` (app.py lines 1504-1573).  A `POST`, or the
absence of an active generation, triggers generation for the requested
category (any category other than `College Planning` uses the Test-Prep
generator) and returns the freshly saved list; otherwise the active rows are
returned sorted by `task_order` with nested subtasks.  The surrounding
`try/except` turns an escaping exception (the Test-Prep mock's
`ValueError`) into a 500 error response, modelled as `Except.error`.  The
chat-history select only feeds the prompt and is elided. -/
def api_tasks (db : DB) (user_id : Nat) (method : HttpMethod)
    (category : String) (ai : AIOutcome) (cai : CollegeAIOutcome)
    (now : Nat) : DB × Except String JVal :=
  let active_path := active_path_rows db user_id category
  if method == HttpMethod.post || active_path.isEmpty then
    if category == "College Planning" then
      let p := generate_and_save_new_college_path db user_id now cai
      (p.1, Except.ok (JVal.jarr (p.2.map csavedTaskToJson)))
    else
      let p := generate_and_save_new_test_path db user_id now ai
      match p.2 with
      | Except.error e => (p.1, Except.error e)
      | Except.ok saved =>
        (p.1, Except.ok (JVal.jarr (saved.map savedTaskToJson)))
  else
    (db, Except.ok (JVal.jarr
      ((sort_by_task_order active_path).map (listingTaskToJson db))))

/-- One question of a `GET /api/quiz/<task_id>` response. -/
structure QuizQuestionOut where
  id : Nat
  question_text : String
  options : List String
  correct_option : Nat
  explanation : String
deriving Repr, DecidableEq, Inhabited

/-- A `GET /api/quiz/<task_id>` response body. -/
structure QuizOut where
  title : String
  questions : List QuizQuestionOut
deriving Repr, DecidableEq, Inhabited

/-- `GET /api/quiz/<task_id>` (app.py lines 1578-1606): ownership and
format check, then the quiz row and its questions (options decoded from
JSON).  `Except.error` carries the 404 message. -/
def get_quiz (db : DB) (user_id task_id : Nat) : Except String QuizOut :=
  match db.paths.filter (fun r => r.id == task_id && r.user_id == user_id) with
  | [] => Except.error "Quiz not found or task is not a quiz"
  | t :: _ =>
    if t.task_format != "quiz" then
      Except.error "Quiz not found or task is not a quiz"
    else
      match t.task_content_id with
      | none => Except.error "Quiz details not found"
      | some quiz_id =>
        match db.quizzes.filter (fun z => z.id == quiz_id) with
        | [] => Except.error "Quiz details not found"
        | z :: _ =>
          Except.ok
            { title := z.title,
              questions :=
                (db.quiz_questions.filter (fun q => q.quiz_id == quiz_id)).map
                  (fun q =>
                    { id := q.id, question_text := q.question_text,
                      options := q.options,
                      correct_option := q.correct_option,
                      explanation := q.explanation }) }

/-- `POST /api/update_task_deadline` (app.py lines 1851-1859): updates
`due_date` on every `paths` row matching the given id — the WHERE clause
carries no `user_id`, so ownership is not checked.  Always returns
success. -/
def update_task_deadline (db : DB) (taskId : Option Nat)
    (dueDate : Option String) : DB × Bool :=
  ({ db with paths := db.paths.map (fun r =>
      if taskId == some r.id then { r with due_date := dueDate } else r) },
   true)

/-- `POST /api/update_subtask` (app.py lines 1862-1871): updates
`is_completed` on every `subtasks` row matching the given id — again with
no ownership check.  Always returns success. -/
def update_subtask (db : DB) (subtaskId : Option Nat)
    (is_completed : Bool) : DB × Bool :=
  ({ db with subtasks := db.subtasks.map (fun s =>
      if subtaskId == some s.id then { s with is_completed := is_completed }
      else s) },
   true)

/-- The achievement evaluation of `dashboard` (app.py lines 1153-1196):
each achievement's `is_earned` flag from the user's task rows, points and
streak, then the filter `[a for a in all_achievements if a['is_earned']]`,
projected to achievement ids. -/
def dashboard_earned_achievements (all_tasks : List PathRow)
    (points streak : Nat) : List String :=
  let total_test_prep_completed :=
    (all_tasks.filter (fun t => t.is_completed && t.category == "Test Prep")).length
  let total_college_planning_completed :=
    (all_tasks.filter (fun t =>
      t.is_completed && t.category == "College Planning")).length
  let all_completed_tasks :=
    total_test_prep_completed + total_college_planning_completed
  let flags : List (String × Bool) :=
    [("pioneer_test", all_tasks.any (fun t => t.category == "Test Prep")),
     ("planner_college",
      all_tasks.any (fun t => t.category == "College Planning")),
     ("first_step", decide (1 ≤ all_completed_tasks)),
     ("task_master_10", decide (10 ≤ all_completed_tasks)),
     ("pathfinder_pro_25", decide (25 ≤ all_completed_tasks)),
     ("streak_3", decide (3 ≤ streak)),
     ("streak_7", decide (7 ≤ streak)),
     ("points_100", decide (100 ≤ points)),
     ("points_500", decide (500 ≤ points))]
  (flags.filter (fun p => p.2)).map (fun p => p.1)

/-- The dashboard read (app.py lines 1028-1196) restricted to its
achievement output: selects the user's tasks and gamification row (inserting
a zeroed row if absent, lines 1033-1038) and recomputes the earned set. -/
def dashboard_achievements (db : DB) (user_id : Nat) : DB × List String :=
  let all_tasks := db.paths.filter (fun r => r.user_id == user_id)
  match db.gamification_stats.filter (fun g => g.user_id == user_id) with
  | [] =>
    ({ db with gamification_stats := db.gamification_stats ++
        [{ user_id := user_id, points := 0, current_streak := 0,
           last_completed_date := none }] },
     dashboard_earned_achievements all_tasks 0 0)
  | g :: _ =>
    (db, dashboard_earned_achievements all_tasks g.points g.current_streak)

/-- Well-formedness of a database state, maintained by sqlite's
autoincrement keys and foreign keys: every id is positive and below its
table's counter, and quiz back-references point below the quiz counter. -/
structure DB.WF (db : DB) : Prop where
  next_path_pos : 0 < db.next_path_id
  paths_id_lt : ∀ r ∈ db.paths, r.id < db.next_path_id
  paths_id_pos : ∀ r ∈ db.paths, 0 < r.id
  paths_content_lt :
    ∀ r ∈ db.paths, ∀ q, r.task_content_id = some q → q < db.next_quiz_id
  quizzes_id_lt : ∀ z ∈ db.quizzes, z.id < db.next_quiz_id
  questions_quiz_lt : ∀ q ∈ db.quiz_questions, q.quiz_id < db.next_quiz_id

/-- The `quiz_questions` rows inserted by the question loop of
`_generate_and_save_new_test_path`, for a quiz id and a starting
autoincrement value. -/
def mkQuestionRows (quiz_id : Nat) : Nat → List GenQuizQuestion → List QuizQuestionRow
  | _, [] => []
  | n, q :: qs =>
    { id := n, quiz_id := quiz_id, question_text := q.question_text,
      options := q.options, correct_option := q.correct_option,
      explanation := q.explanation } :: mkQuestionRows quiz_id (n + 1) qs

instance : IsTotal PathRow byTaskOrder :=
  ⟨fun a b => Nat.le_total a.task_order b.task_order⟩

instance : IsTrans PathRow byTaskOrder :=
  ⟨fun _ _ _ hab hbc => Nat.le_trans hab hbc⟩

/-- The streak computation of `api_update_task_status` (app.py lines
1645-1661), as a function of the stored row and today's date. -/
def new_streak_calc (g : GamificationRow) (today : Nat) : Nat :=
  match g.last_completed_date with
  | some d =>
    if d == today then g.current_streak
    else if d + 1 == today then g.current_streak + 1
    else 1
  | none => 1

/-- The database produced by the effective (incomplete → complete) branch of
`api_update_task_status`, given the selected task row `t` and gamification
row `g` (auxiliary normal form used by the lemmas below). -/
def complete_effect (db : DB) (user_id tid today : Nat) (t : PathRow)
    (g : GamificationRow) : DB :=
  let db1 : DB := { db with
    paths := db.paths.map (fun r =>
      if r.id == tid && r.user_id == user_id then
        { r with is_completed := true } else r) }
  let db2 := logActivity db1 user_id "task_completed"
    [("description", t.description), ("category", t.category)]
  { db2 with
    gamification_stats := db2.gamification_stats.map (fun gr =>
      if gr.user_id == user_id then
        { gr with points := gr.points + points_to_add t.ttype t.description,
                  current_streak := new_streak_calc g today,
                  last_completed_date := some today }
      else gr) }

/-- The payload of a fetched quiz question (everything except the database
id). -/
def qOutData (q : QuizQuestionOut) : String × List String × Nat × String :=
  (q.question_text, q.options, q.correct_option, q.explanation)

/-- The payload of a collaborator-declared quiz question. -/
def qGenData (q : GenQuizQuestion) : String × List String × Nat × String :=
  (q.question_text, q.options, q.correct_option, q.explanation)

/-- Key list of the first object of a list-valued endpoint response
(auxiliary for response-shape statements). -/
def firstObjKeys : Except String JVal → List String
  | Except.ok (JVal.jarr (v :: _)) => v.keys
  | _ => []

/-- A row `r2` is the row `r` after at most a generation-turnover
deactivation. -/
def eq_except_active (r r2 : PathRow) : Prop :=
  r2 = r ∨ r2 = { r with is_active := false }

/-- All fields of a `paths` row except `is_completed` (auxiliary for frame
statements). -/
def path_frame (r : PathRow) :
    Nat × Nat × Nat × String × Bool × Nat × String × Option String ×
      String × Option String × Bool × String × String × Option Nat :=
  (r.id, r.user_id, r.task_order, r.description, r.is_active, r.created_at,
   r.ttype, r.stat_to_update, r.category, r.due_date, r.is_user_added,
   r.reason, r.task_format, r.task_content_id)

/-- Witness data: a milestone task whose description merely mentions
"boss battle" without beginning with the `Boss Battle:` marker. -/
def wBossRow : PathRow :=
  { id := 1, user_id := 1, task_order := 1,
    description := "Defeat the boss battle", is_completed := false,
    is_active := true, created_at := 1, ttype := "milestone",
    stat_to_update := none, category := "Test Prep", due_date := none,
    is_user_added := false, reason := "r", task_format := "link",
    task_content_id := none }

/-- Witness data: a gamification row with a 3-day streak last fed on day 3. -/
def wGamRow : GamificationRow :=
  { user_id := 1, points := 0, current_streak := 3,
    last_completed_date := some 3 }

/-- Witness database: one user, one incomplete milestone task, one
gamification row. -/
def wDb : DB :=
  { users := [1], paths := [wBossRow], subtasks := [], quizzes := [],
    quiz_questions := [], gamification_stats := [wGamRow],
    activity_log := [], next_path_id := 2, next_subtask_id := 1,
    next_quiz_id := 1, next_question_id := 1, next_activity_id := 1 }

/-- Witness database: one user with no tasks at all. -/
def emptyDb : DB :=
  { users := [1], paths := [], subtasks := [], quizzes := [],
    quiz_questions := [],
    gamification_stats := [{ user_id := 1, points := 0, current_streak := 0,
                             last_completed_date := none }],
    activity_log := [], next_path_id := 1, next_subtask_id := 1,
    next_quiz_id := 1, next_question_id := 1, next_activity_id := 1 }

/-- Witness data: a task row owned by user 2 (for ownership-check claims,
where the caller is user 1). -/
def otherUsersRow : PathRow :=
  { id := 1, user_id := 2, task_order := 1, description := "private task",
    is_completed := false, is_active := true, created_at := 1,
    ttype := "standard", stat_to_update := none, category := "Test Prep",
    due_date := none, is_user_added := false, reason := "r",
    task_format := "link", task_content_id := none }

/-- Witness database: a task and a subtask owned by user 2, while the caller
of the modelled endpoints is user 1. -/
def otherUsersDb : DB :=
  { users := [1, 2], paths := [otherUsersRow],
    subtasks := [{ id := 1, parent_task_id := 1,
                   description := "private subtask", is_completed := false }],
    quizzes := [], quiz_questions := [],
    gamification_stats := [{ user_id := 2, points := 0, current_streak := 0,
                             last_completed_date := none }],
    activity_log := [], next_path_id := 2, next_subtask_id := 2,
    next_quiz_id := 1, next_question_id := 1, next_activity_id := 1 }

/-- A single collaborator link task used by generation witnesses. -/
def wGenLinkTask : GenTask :=
  { task_format := "link", description := "Watch a lesson",
    reason := "background", ttype := "standard", stat_to_update := none,
    category := "Test Prep", difficulty := "easy", quiz_content := none }

/-- Witness data: the i-th task row of a ten-task database. -/
def wTaskRow (i : Nat) (c : Bool) : PathRow :=
  { id := i, user_id := 1, task_order := i, description := "task",
    is_completed := c, is_active := true, created_at := 1,
    ttype := "standard", stat_to_update := none, category := "Test Prep",
    due_date := none, is_user_added := false, reason := "r",
    task_format := "link", task_content_id := none }

/-- Witness database: nine completed tasks and a tenth incomplete one. -/
def wTenDb : DB :=
  { users := [1],
    paths := [wTaskRow 1 true, wTaskRow 2 true, wTaskRow 3 true,
              wTaskRow 4 true, wTaskRow 5 true, wTaskRow 6 true,
              wTaskRow 7 true, wTaskRow 8 true, wTaskRow 9 true,
              wTaskRow 10 false],
    subtasks := [], quizzes := [], quiz_questions := [],
    gamification_stats := [{ user_id := 1, points := 90, current_streak := 1,
                             last_completed_date := some 19 }],
    activity_log := [], next_path_id := 11, next_subtask_id := 1,
    next_quiz_id := 1, next_question_id := 1, next_activity_id := 1 }

theorem filter_map_pres {α : Type} {f : α → α} {p : α → Bool}
    (h : ∀ x, p (f x) = p x) (l : List α) :
    (l.map f).filter p = (l.filter p).map f := by
  rw [List.filter_map]
  congr 1
  exact List.filter_congr (fun x _ => h x)

theorem api_update_complete_effective (db : DB) (user_id tid today : Nat)
    (t : PathRow) (rest : List PathRow) (g : GamificationRow)
    (grest : List GamificationRow)
    (hfil : db.paths.filter (fun r => r.id == tid && r.user_id == user_id) =
      t :: rest)
    (ht : t.is_completed = false) (htid : tid ≠ 0)
    (hg : db.gamification_stats.filter (fun g2 => g2.user_id == user_id) =
      g :: grest) :
    api_update_task_status db user_id "complete" (some tid) today =
      some (complete_effect db user_id tid today t g, true) := by
  have h0 : (tid != 0) = true := by simpa using htid
  simp only [api_update_task_status]
  rw [hfil]
  simp only [ht, Bool.false_eq_true, if_false, logActivity, h0]
  rw [hg]
  rfl

theorem api_update_noop_absent (db : DB) (user_id tid today : Nat)
    (hfil : db.paths.filter (fun r => r.id == tid && r.user_id == user_id) = []) :
    api_update_task_status db user_id "complete" (some tid) today =
      some (db, true) := by
  by_cases h0 : tid = 0
  · simp [api_update_task_status, h0]
  · simp only [api_update_task_status]
    rw [hfil]
    simp [h0]

theorem api_update_noop_completed (db : DB) (user_id tid today : Nat)
    (t : PathRow) (rest : List PathRow)
    (hfil : db.paths.filter (fun r => r.id == tid && r.user_id == user_id) =
      t :: rest)
    (ht : t.is_completed = true) :
    api_update_task_status db user_id "complete" (some tid) today =
      some (db, true) := by
  by_cases h0 : tid = 0
  · simp [api_update_task_status, h0]
  · simp only [api_update_task_status]
    rw [hfil]
    simp [h0, ht]

theorem complete_effect_paths (db : DB) (user_id tid today : Nat)
    (t : PathRow) (g : GamificationRow) :
    (complete_effect db user_id tid today t g).paths =
      db.paths.map (fun r =>
        if r.id == tid && r.user_id == user_id then
          { r with is_completed := true } else r) := rfl

theorem complete_effect_gam (db : DB) (user_id tid today : Nat)
    (t : PathRow) (g : GamificationRow) :
    (complete_effect db user_id tid today t g).gamification_stats =
      db.gamification_stats.map (fun gr =>
        if gr.user_id == user_id then
          { gr with points := gr.points + points_to_add t.ttype t.description,
                    current_streak := new_streak_calc g today,
                    last_completed_date := some today }
        else gr) := rfl

theorem gam_filter_map (l : List GamificationRow) (user_id : Nat)
    (f : GamificationRow → GamificationRow)
    (hpres : ∀ x, (f x).user_id = x.user_id) :
    (l.map f).filter (fun g2 => g2.user_id == user_id) =
      (l.filter (fun g2 => g2.user_id == user_id)).map f :=
  filter_map_pres (fun x => by simp [hpres x]) l

theorem paths_filter_map (l : List PathRow) (tid user_id : Nat)
    (f : PathRow → PathRow)
    (hid : ∀ x, (f x).id = x.id) (huser : ∀ x, (f x).user_id = x.user_id) :
    (l.map f).filter (fun r => r.id == tid && r.user_id == user_id) =
      (l.filter (fun r => r.id == tid && r.user_id == user_id)).map f :=
  filter_map_pres (fun x => by simp [hid x, huser x]) l

theorem user_gam_row_complete_effect (db : DB) (user_id tid today : Nat)
    (t : PathRow) (g : GamificationRow) (grest : List GamificationRow)
    (hg : db.gamification_stats.filter (fun g2 => g2.user_id == user_id) =
      g :: grest) :
    user_gam_row (complete_effect db user_id tid today t g) user_id =
      some { g with points := g.points + points_to_add t.ttype t.description,
                    current_streak := new_streak_calc g today,
                    last_completed_date := some today } := by
  have hgp : g.user_id = user_id := by
    have hm : g ∈ db.gamification_stats.filter
        (fun g2 => g2.user_id == user_id) := by
      rw [hg]; exact List.mem_cons_self _ _
    simpa using List.of_mem_filter hm
  unfold user_gam_row
  rw [complete_effect_gam,
    gam_filter_map _ _ _ (fun x => by by_cases hx : x.user_id = user_id <;> simp [hx]),
    hg]
  simp [hgp]


theorem points_to_add_cases (task_type description : String) :
    points_to_add task_type description =
      (if descriptionMentionsBossBattle description then 100
       else if task_type == "milestone" then 25 else 10) := by
  unfold points_to_add
  by_cases hb : descriptionMentionsBossBattle description <;> simp [hb]

/-- C2 is refuted on the code: `api_update_task_status` awards 100 points to
a milestone task whose description merely contains "boss battle" without
beginning with the `Boss Battle:` marker, where the claim prescribes 25. -/
theorem C2_counterexample :
    charsMatchAt ("boss battle:".data) (lowerChars wBossRow.description) = false ∧
    wBossRow.ttype = "milestone" ∧
    spec_points_rule wBossRow.ttype wBossRow.description = 25 ∧
    (api_update_task_status wDb 1 "complete" (some 1) 10).map
      (fun p => user_points p.1 1) = some (some 100) := by decide

/-- C2 (amended): on an effective completion the points awarded follow a
first-match-wins rule keyed on a case-insensitive SUBSTRING test: if the
description contains "boss battle" anywhere (so in particular when it begins
with the `Boss Battle:` marker) the award is 100; otherwise a milestone task
awards 25; otherwise 10. -/
theorem C2_points_award (db : DB) (user_id tid today : Nat)
    (t : PathRow) (rest : List PathRow) (g : GamificationRow)
    (grest : List GamificationRow)
    (hfil : db.paths.filter (fun r => r.id == tid && r.user_id == user_id) =
      t :: rest)
    (ht : t.is_completed = false) (htid : tid ≠ 0)
    (hg : db.gamification_stats.filter (fun g2 => g2.user_id == user_id) =
      g :: grest) :
    ∃ db2, api_update_task_status db user_id "complete" (some tid) today =
        some (db2, true) ∧
      user_points db2 user_id = some (g.points +
        (if descriptionMentionsBossBattle t.description then 100
         else if t.ttype == "milestone" then 25 else 10)) := by
  refine ⟨complete_effect db user_id tid today t g,
    api_update_complete_effective db user_id tid today t rest g grest
      hfil ht htid hg, ?_⟩
  have h := user_gam_row_complete_effect db user_id tid today t g grest hg
  have hpe : user_points (complete_effect db user_id tid today t g) user_id =
      (user_gam_row (complete_effect db user_id tid today t g) user_id).map
        GamificationRow.points := by
    unfold user_points user_gam_row
    cases (complete_effect db user_id tid today t g).gamification_stats.filter
      (fun g2 => g2.user_id == user_id) <;> rfl
  have hup : user_points (complete_effect db user_id tid today t g) user_id =
      some (g.points + points_to_add t.ttype t.description) := by
    rw [hpe, h]
    rfl
  rw [hup, points_to_add_cases]

/-- Witness for C2_points_award at a concrete database. -/
theorem C2_points_award_witness :
    ∃ db2, api_update_task_status wDb 1 "complete" (some 1) 10 =
        some (db2, true) ∧
      user_points db2 1 = some (0 +
        (if descriptionMentionsBossBattle wBossRow.description then 100
         else if wBossRow.ttype == "milestone" then 25 else 10)) :=
  C2_points_award wDb 1 1 10 wBossRow [] wGamRow [] (by decide) (by decide)
    (by decide) (by decide)


theorem api_update_effective_nogam (db : DB) (user_id tid today : Nat)
    (t : PathRow) (rest : List PathRow)
    (hfil : db.paths.filter (fun r => r.id == tid && r.user_id == user_id) =
      t :: rest)
    (ht : t.is_completed = false) (htid : tid ≠ 0)
    (hg : db.gamification_stats.filter (fun g2 => g2.user_id == user_id) = []) :
    api_update_task_status db user_id "complete" (some tid) today = none := by
  have h0 : (tid != 0) = true := by simpa using htid
  simp only [api_update_task_status]
  rw [hfil]
  simp only [ht, Bool.false_eq_true, if_false, logActivity, h0]
  rw [hg]
  rfl

/-- C3: task completion is idempotent — absent, unowned or already-completed
tasks give a success no-op with unchanged state, and a second call on the
same id (on any later day) leaves the state of the first call untouched
while still reporting success. -/
theorem C3_complete_idempotent (db : DB) (user_id tid today today2 : Nat) :
    (db.paths.filter (fun r => r.id == tid && r.user_id == user_id) = [] →
      api_update_task_status db user_id "complete" (some tid) today =
        some (db, true)) ∧
    (∀ t rest,
      db.paths.filter (fun r => r.id == tid && r.user_id == user_id) =
        t :: rest →
      t.is_completed = true →
      api_update_task_status db user_id "complete" (some tid) today =
        some (db, true)) ∧
    (∀ db1 b,
      api_update_task_status db user_id "complete" (some tid) today =
        some (db1, b) →
      api_update_task_status db1 user_id "complete" (some tid) today2 =
        some (db1, true)) := by
  refine ⟨fun hfil => api_update_noop_absent _ _ _ _ hfil,
    fun t rest hfil ht => api_update_noop_completed _ _ _ _ t rest hfil ht, ?_⟩
  intro db1 b h1
  by_cases h0 : tid = 0
  · have hnoop : api_update_task_status db user_id "complete" (some tid) today =
        some (db, true) := by simp [api_update_task_status, h0]
    rw [hnoop] at h1
    simp only [Option.some.injEq, Prod.mk.injEq] at h1
    obtain ⟨h1a, -⟩ := h1
    subst h1a
    simp [api_update_task_status, h0]
  · rcases hfil : db.paths.filter
        (fun r => r.id == tid && r.user_id == user_id) with _ | ⟨t, rest⟩
    · have hnoop := api_update_noop_absent db user_id tid today hfil
      rw [hnoop] at h1
      simp only [Option.some.injEq, Prod.mk.injEq] at h1
      obtain ⟨h1a, -⟩ := h1
      subst h1a
      exact api_update_noop_absent db user_id tid today2 hfil
    · by_cases ht : t.is_completed
      · have hnoop := api_update_noop_completed db user_id tid today t rest hfil ht
        rw [hnoop] at h1
        simp only [Option.some.injEq, Prod.mk.injEq] at h1
        obtain ⟨h1a, -⟩ := h1
        subst h1a
        exact api_update_noop_completed db user_id tid today2 t rest hfil ht
      · rcases hg : db.gamification_stats.filter
            (fun g2 => g2.user_id == user_id) with _ | ⟨g, grest⟩
        · have := api_update_effective_nogam db user_id tid today t rest hfil
            (by simpa using ht) h0 hg
          rw [this] at h1
          exact absurd h1 (by simp)
        · have heff := api_update_complete_effective db user_id tid today
            t rest g grest hfil (by simpa using ht) h0 hg
          rw [heff] at h1
          simp only [Option.some.injEq, Prod.mk.injEq] at h1
          obtain ⟨h1a, -⟩ := h1
          subst h1a
          have hpt : (t.id == tid && t.user_id == user_id) = true := by
            have hm : t ∈ db.paths.filter
                (fun r => r.id == tid && r.user_id == user_id) := by
              rw [hfil]; exact List.mem_cons_self _ _
            exact List.of_mem_filter (p := fun (r : PathRow) => r.id == tid && r.user_id == user_id) hm
          have hfil2 : (complete_effect db user_id tid today t g).paths.filter
              (fun r => r.id == tid && r.user_id == user_id) =
              { t with is_completed := true } ::
                rest.map (fun r =>
                  if r.id == tid && r.user_id == user_id then
                    { r with is_completed := true } else r) := by
            rw [complete_effect_paths,
              paths_filter_map _ _ _ _
                (fun x => by by_cases hx : (x.id == tid && x.user_id == user_id) = true <;> simp [hx])
                (fun x => by by_cases hx : (x.id == tid && x.user_id == user_id) = true <;> simp [hx]),
              hfil]
            simp only [List.map_cons, hpt]
            rfl
          exact api_update_noop_completed _ _ _ _ _ _ hfil2 rfl

/-- Witness for C3_complete_idempotent: completing the same task twice on
a concrete database persists the first call's state unchanged. -/
theorem C3_complete_idempotent_witness :
    ∃ p : DB × Bool,
      api_update_task_status wDb 1 "complete" (some 1) 10 = some p ∧
      api_update_task_status p.1 1 "complete" (some 1) 11 = some (p.1, true) := by
  obtain ⟨-, -, h3⟩ := C3_complete_idempotent wDb 1 1 10 11
  exact ⟨_, rfl, h3 _ _ rfl⟩


/-- C4: on an effective completion, the streak is unchanged when the stored
date is today, incremented when it is yesterday, reset to 1 on a null date
or a gap of two or more days, and `last_completed_date` becomes today in
every branch. -/
theorem C4_streak_rule (db : DB) (user_id tid today : Nat)
    (t : PathRow) (rest : List PathRow) (g : GamificationRow)
    (grest : List GamificationRow)
    (hfil : db.paths.filter (fun r => r.id == tid && r.user_id == user_id) =
      t :: rest)
    (ht : t.is_completed = false) (htid : tid ≠ 0)
    (hg : db.gamification_stats.filter (fun g2 => g2.user_id == user_id) =
      g :: grest) :
    ∃ db2, api_update_task_status db user_id "complete" (some tid) today =
        some (db2, true) ∧
      ∃ g2, user_gam_row db2 user_id = some g2 ∧
        g2.last_completed_date = some today ∧
        (g.last_completed_date = some today →
          g2.current_streak = g.current_streak) ∧
        (∀ d, g.last_completed_date = some d → d + 1 = today →
          g2.current_streak = g.current_streak + 1) ∧
        ((g.last_completed_date = none ∨
          ∃ d, g.last_completed_date = some d ∧ d ≠ today ∧ d + 1 ≠ today) →
          g2.current_streak = 1) := by
  refine ⟨_, api_update_complete_effective db user_id tid today t rest g grest
    hfil ht htid hg, ?_⟩
  refine ⟨_, user_gam_row_complete_effect db user_id tid today t g grest hg,
    rfl, ?_, ?_, ?_⟩
  · intro hsame
    simp [new_streak_calc, hsame]
  · intro d hd hd1
    have hne : d ≠ today := by omega
    simp [new_streak_calc, hd, hne, hd1]
  · rintro (hnone | ⟨d, hd, hne, hne1⟩)
    · simp [new_streak_calc, hnone]
    · simp [new_streak_calc, hd, hne, hne1]

/-- Witness for C4_streak_rule: a completion with a 7-day gap resets the
streak to 1 and stamps today. -/
theorem C4_streak_rule_witness :
    ∃ db2, api_update_task_status wDb 1 "complete" (some 1) 10 =
        some (db2, true) ∧
      ∃ g2, user_gam_row db2 1 = some g2 ∧
        g2.last_completed_date = some 10 ∧ g2.current_streak = 1 := by
  obtain ⟨db2, hapi, g2, hrow, hlast, -, -, hreset⟩ :=
    C4_streak_rule wDb 1 1 10 wBossRow [] wGamRow [] (by decide) (by decide)
      (by decide) (by decide)
  exact ⟨db2, hapi, g2, hrow, hlast,
    hreset (Or.inr ⟨3, rfl, by decide, by decide⟩)⟩

/-- C10: frame condition of an effective completion — only the matching
task row's `is_completed` flag, the caller's gamification row, and one
appended activity-log row change; subtask, quiz, question and user tables
and all other rows are untouched. -/
theorem C10_complete_frame (db : DB) (user_id tid today : Nat)
    (t : PathRow) (rest : List PathRow) (g : GamificationRow)
    (grest : List GamificationRow)
    (hfil : db.paths.filter (fun r => r.id == tid && r.user_id == user_id) =
      t :: rest)
    (ht : t.is_completed = false) (htid : tid ≠ 0)
    (hg : db.gamification_stats.filter (fun g2 => g2.user_id == user_id) =
      g :: grest) :
    ∃ db2, api_update_task_status db user_id "complete" (some tid) today =
        some (db2, true) ∧
      db2.users = db.users ∧
      db2.subtasks = db.subtasks ∧
      db2.quizzes = db.quizzes ∧
      db2.quiz_questions = db.quiz_questions ∧
      db2.paths.length = db.paths.length ∧
      (∀ (i : Nat) (r : PathRow), db.paths[i]? = some r →
        ∃ r2, db2.paths[i]? = some r2 ∧ path_frame r2 = path_frame r ∧
          (r.id = tid ∧ r.user_id = user_id → r2.is_completed = true) ∧
          (¬(r.id = tid ∧ r.user_id = user_id) → r2 = r)) ∧
      db2.gamification_stats.length = db.gamification_stats.length ∧
      (∀ (i : Nat) (gr : GamificationRow), db.gamification_stats[i]? = some gr → gr.user_id ≠ user_id →
        db2.gamification_stats[i]? = some gr) ∧
      (∃ e, db2.activity_log = db.activity_log ++ [e] ∧
        e.user_id = user_id ∧ e.activity_type = "task_completed") := by
  refine ⟨_, api_update_complete_effective db user_id tid today t rest g grest
    hfil ht htid hg, rfl, rfl, rfl, rfl, ?_, ?_, ?_, ?_, ?_⟩
  · rw [complete_effect_paths, List.length_map]
  · intro i r hi
    rw [complete_effect_paths, List.getElem?_map, hi]
    by_cases hc : r.id = tid ∧ r.user_id = user_id
    · refine ⟨{ r with is_completed := true }, ?_, rfl, fun _ => rfl, fun hn => absurd hc hn⟩
      simp [hc.1, hc.2]
    · refine ⟨r, ?_, rfl, fun hcc => absurd hcc hc, fun _ => rfl⟩
      have hb : (r.id == tid && r.user_id == user_id) = false := by
        rcases Decidable.not_and_iff_or_not.mp hc with h | h <;> simp [h]
      simp [hb]
      intro h1 h2
      exact absurd ⟨h1, h2⟩ hc
  · rw [complete_effect_gam, List.length_map]
  · intro i gr hi hne
    rw [complete_effect_gam, List.getElem?_map, hi]
    simp [hne]
  · exact ⟨_, rfl, rfl, rfl⟩

/-- Witness for C10_complete_frame at a concrete database. -/
theorem C10_complete_frame_witness :
    ∃ db2, api_update_task_status wDb 1 "complete" (some 1) 10 =
        some (db2, true) ∧
      db2.users = wDb.users ∧
      db2.subtasks = wDb.subtasks ∧
      db2.quizzes = wDb.quizzes ∧
      db2.quiz_questions = wDb.quiz_questions ∧
      db2.paths.length = wDb.paths.length ∧
      (∀ (i : Nat) (r : PathRow), wDb.paths[i]? = some r →
        ∃ r2, db2.paths[i]? = some r2 ∧ path_frame r2 = path_frame r ∧
          (r.id = 1 ∧ r.user_id = 1 → r2.is_completed = true) ∧
          (¬(r.id = 1 ∧ r.user_id = 1) → r2 = r)) ∧
      db2.gamification_stats.length = wDb.gamification_stats.length ∧
      (∀ (i : Nat) (gr : GamificationRow), wDb.gamification_stats[i]? = some gr → gr.user_id ≠ 1 →
        db2.gamification_stats[i]? = some gr) ∧
      (∃ e, db2.activity_log = wDb.activity_log ++ [e] ∧
        e.user_id = 1 ∧ e.activity_type = "task_completed") :=
  C10_complete_frame wDb 1 1 10 wBossRow [] wGamRow [] (by decide) (by decide)
    (by decide) (by decide)


theorem mem_earned_iff (ts : List PathRow) (p s : Nat) (a : String) :
    a ∈ dashboard_earned_achievements ts p s ↔
      ((a = "pioneer_test" ∧ ts.any (fun t => t.category == "Test Prep") = true) ∨
       (a = "planner_college" ∧
         ts.any (fun t => t.category == "College Planning") = true) ∨
       (a = "first_step" ∧ 1 ≤
         (ts.filter (fun t => t.is_completed && t.category == "Test Prep")).length +
         (ts.filter (fun t => t.is_completed && t.category == "College Planning")).length) ∨
       (a = "task_master_10" ∧ 10 ≤
         (ts.filter (fun t => t.is_completed && t.category == "Test Prep")).length +
         (ts.filter (fun t => t.is_completed && t.category == "College Planning")).length) ∨
       (a = "pathfinder_pro_25" ∧ 25 ≤
         (ts.filter (fun t => t.is_completed && t.category == "Test Prep")).length +
         (ts.filter (fun t => t.is_completed && t.category == "College Planning")).length) ∨
       (a = "streak_3" ∧ 3 ≤ s) ∨
       (a = "streak_7" ∧ 7 ≤ s) ∨
       (a = "points_100" ∧ 100 ≤ p) ∨
       (a = "points_500" ∧ 500 ≤ p)) := by
  simp only [dashboard_earned_achievements, List.mem_map, List.mem_filter]
  constructor
  · rintro ⟨⟨x1, x2⟩, ⟨hmem, hflag⟩, rfl⟩
    simp only [List.mem_cons, List.not_mem_nil, or_false] at hmem
    rcases hmem with h | h | h | h | h | h | h | h | h <;>
      (injection h with h1 h2; subst h1; subst h2; simp_all)
  · rintro (⟨rfl, hc⟩ | ⟨rfl, hc⟩ | ⟨rfl, hc⟩ | ⟨rfl, hc⟩ | ⟨rfl, hc⟩ |
      ⟨rfl, hc⟩ | ⟨rfl, hc⟩ | ⟨rfl, hc⟩ | ⟨rfl, hc⟩)
    · exact ⟨("pioneer_test", ts.any fun t => t.category == "Test Prep"),
        ⟨by simp, hc⟩, rfl⟩
    · exact ⟨("planner_college", ts.any fun t => t.category == "College Planning"),
        ⟨by simp, hc⟩, rfl⟩
    · exact ⟨("first_step", decide (1 ≤
        (ts.filter (fun t => t.is_completed && t.category == "Test Prep")).length +
        (ts.filter (fun t => t.is_completed && t.category == "College Planning")).length)),
        ⟨by simp, by simpa using hc⟩, rfl⟩
    · exact ⟨("task_master_10", decide (10 ≤
        (ts.filter (fun t => t.is_completed && t.category == "Test Prep")).length +
        (ts.filter (fun t => t.is_completed && t.category == "College Planning")).length)),
        ⟨by simp, by simpa using hc⟩, rfl⟩
    · exact ⟨("pathfinder_pro_25", decide (25 ≤
        (ts.filter (fun t => t.is_completed && t.category == "Test Prep")).length +
        (ts.filter (fun t => t.is_completed && t.category == "College Planning")).length)),
        ⟨by simp, by simpa using hc⟩, rfl⟩
    · exact ⟨("streak_3", decide (3 ≤ s)), ⟨by simp, by simpa using hc⟩, rfl⟩
    · exact ⟨("streak_7", decide (7 ≤ s)), ⟨by simp, by simpa using hc⟩, rfl⟩
    · exact ⟨("points_100", decide (100 ≤ p)), ⟨by simp, by simpa using hc⟩, rfl⟩
    · exact ⟨("points_500", decide (500 ≤ p)), ⟨by simp, by simpa using hc⟩, rfl⟩


theorem dashboard_achievements_eq (db : DB) (user_id : Nat) :
    (dashboard_achievements db user_id).2 =
      match db.gamification_stats.filter (fun g2 => g2.user_id == user_id) with
      | [] => dashboard_earned_achievements
          (db.paths.filter (fun r => r.user_id == user_id)) 0 0
      | g :: _ => dashboard_earned_achievements
          (db.paths.filter (fun r => r.user_id == user_id))
          g.points g.current_streak := by
  unfold dashboard_achievements
  cases db.gamification_stats.filter (fun g2 => g2.user_id == user_id) <;> rfl

theorem api_update_cases (db : DB) (user_id tid today : Nat) (db1 : DB)
    (b : Bool)
    (h : api_update_task_status db user_id "complete" (some tid) today =
      some (db1, b)) :
    db1 = db ∨
    ∃ t rest g grest,
      db.paths.filter (fun r => r.id == tid && r.user_id == user_id) =
        t :: rest ∧
      t.is_completed = false ∧ tid ≠ 0 ∧
      db.gamification_stats.filter (fun g2 => g2.user_id == user_id) =
        g :: grest ∧
      db1 = complete_effect db user_id tid today t g := by
  by_cases h0 : tid = 0
  · left
    have hnoop : api_update_task_status db user_id "complete" (some tid) today =
        some (db, true) := by simp [api_update_task_status, h0]
    rw [hnoop] at h
    simp only [Option.some.injEq, Prod.mk.injEq] at h
    exact h.1.symm
  · rcases hfil : db.paths.filter
        (fun r => r.id == tid && r.user_id == user_id) with _ | ⟨t, rest⟩
    · left
      have hnoop := api_update_noop_absent db user_id tid today hfil
      rw [hnoop] at h
      simp only [Option.some.injEq, Prod.mk.injEq] at h
      exact h.1.symm
    · by_cases ht : t.is_completed
      · left
        have hnoop := api_update_noop_completed db user_id tid today t rest hfil ht
        rw [hnoop] at h
        simp only [Option.some.injEq, Prod.mk.injEq] at h
        exact h.1.symm
      · rcases hg : db.gamification_stats.filter
            (fun g2 => g2.user_id == user_id) with _ | ⟨g, grest⟩
        · have := api_update_effective_nogam db user_id tid today t rest hfil
            (by simpa using ht) h0 hg
          rw [this] at h
          exact absurd h (by simp)
        · right
          have heff := api_update_complete_effective db user_id tid today
            t rest g grest hfil (by simpa using ht) h0 hg
          rw [heff] at h
          simp only [Option.some.injEq, Prod.mk.injEq] at h
          exact ⟨t, rest, g, grest, hfil, by simpa using ht, h0, hg, h.1.symm⟩


/-- C5 is refuted on the code: the streak-based achievement `streak_3` is
shown while the stored streak is 3, but a completion after a multi-day gap
resets the streak to 1, and the next dashboard read no longer shows it —
an unlocked-then-relocked achievement. -/
theorem C5_counterexample :
    "streak_3" ∈ (dashboard_achievements wDb 1).2 ∧
    (api_update_task_status wDb 1 "complete" (some 1) 10).map
      (fun p => (dashboard_achievements p.1 1).2.contains "streak_3") =
      some false := by decide

/-- C5 (amended): the shown achievement set is a pure function of the user's
selected task rows and gamification row; achievements keyed to monotone
counters (category participation, completed-count thresholds 1/10/25,
points thresholds 100/500) survive every completion call, and the
10-completions achievement is shown whenever the post-state count reaches
10 — but streak achievements (3/7) can be relocked when the streak resets. -/
theorem C5_achievements (db : DB) (user_id tid today : Nat) :
    (∀ db2 : DB,
      db.paths.filter (fun r => r.user_id == user_id) =
        db2.paths.filter (fun r => r.user_id == user_id) →
      db.gamification_stats.filter (fun g2 => g2.user_id == user_id) =
        db2.gamification_stats.filter (fun g2 => g2.user_id == user_id) →
      (dashboard_achievements db user_id).2 =
        (dashboard_achievements db2 user_id).2) ∧
    (∀ db1 (b : Bool) (a : String),
      api_update_task_status db user_id "complete" (some tid) today =
        some (db1, b) →
      a ∈ ["pioneer_test", "planner_college", "first_step", "task_master_10",
           "pathfinder_pro_25", "points_100", "points_500"] →
      a ∈ (dashboard_achievements db user_id).2 →
      a ∈ (dashboard_achievements db1 user_id).2) ∧
    (∀ db1 (b : Bool),
      api_update_task_status db user_id "complete" (some tid) today =
        some (db1, b) →
      10 ≤ ((db1.paths.filter (fun r => r.user_id == user_id)).filter
          (fun t => t.is_completed && t.category == "Test Prep")).length +
        ((db1.paths.filter (fun r => r.user_id == user_id)).filter
          (fun t => t.is_completed && t.category == "College Planning")).length →
      "task_master_10" ∈ (dashboard_achievements db1 user_id).2) := by
  refine ⟨?_, ?_, ?_⟩
  · intro db2 hp hgm
    rw [dashboard_achievements_eq, dashboard_achievements_eq, ← hp, ← hgm]
  · intro db1 b a hapi hmem7 hmem
    rcases api_update_cases db user_id tid today db1 b hapi with rfl | hcase
    · exact hmem
    · obtain ⟨t, rest, g, grest, hfil, ht, htid, hg, hdb1⟩ := hcase
      have hgq : g.user_id = user_id := by
        have hm : g ∈ db.gamification_stats.filter
            (fun g2 => g2.user_id == user_id) := by
          rw [hg]; exact List.mem_cons_self _ _
        simpa using List.of_mem_filter hm
      have hfcat : ∀ x : PathRow,
          ((fun r => if r.id == tid && r.user_id == user_id then
            { r with is_completed := true } else r) x).category = x.category := by
        intro x
        by_cases hx : (x.id == tid && x.user_id == user_id) = true <;> simp [hx]
      have hfuser : ∀ x : PathRow,
          ((fun r => if r.id == tid && r.user_id == user_id then
            { r with is_completed := true } else r) x).user_id = x.user_id := by
        intro x
        by_cases hx : (x.id == tid && x.user_id == user_id) = true <;> simp [hx]
      have hts1 : db1.paths.filter (fun r => r.user_id == user_id) =
          (db.paths.filter (fun r => r.user_id == user_id)).map
            (fun r => if r.id == tid && r.user_id == user_id then
              { r with is_completed := true } else r) := by
        rw [hdb1, complete_effect_paths]
        exact filter_map_pres (fun x => by
          by_cases hx : (x.id == tid && x.user_id == user_id) = true <;>
            simp [hx]) _
      have hgam1 : db1.gamification_stats.filter
          (fun g2 => g2.user_id == user_id) =
          ({ g with points := g.points + points_to_add t.ttype t.description,
                    current_streak := new_streak_calc g today,
                    last_completed_date := some today } : GamificationRow) ::
            grest.map (fun gr =>
              if gr.user_id == user_id then
                { gr with
                  points := gr.points + points_to_add t.ttype t.description,
                  current_streak := new_streak_calc g today,
                  last_completed_date := some today }
              else gr) := by
        rw [hdb1, complete_effect_gam,
          gam_filter_map _ _ _ (fun x => by
            by_cases hx : x.user_id = user_id <;> simp [hx]), hg]
        simp [hgq]
      rw [dashboard_achievements_eq, hg] at hmem
      rw [dashboard_achievements_eq, hgam1, hts1]
      rw [mem_earned_iff] at hmem ⊢
      have hanyTP :
          ((db.paths.filter (fun r => r.user_id == user_id)).any
            (fun t2 => t2.category == "Test Prep")) = true →
          (((db.paths.filter (fun r => r.user_id == user_id)).map
              (fun r => if r.id == tid && r.user_id == user_id then
                { r with is_completed := true } else r)).any
            (fun t2 => t2.category == "Test Prep")) = true := by
        intro hany
        rw [List.any_eq_true] at hany ⊢
        obtain ⟨x, hx, hcat⟩ := hany
        refine ⟨_, List.mem_map_of_mem _ hx, ?_⟩
        by_cases hcond : (x.id == tid && x.user_id == user_id) = true <;>
          simp [hcond] <;> simpa using hcat
      have hanyCP :
          ((db.paths.filter (fun r => r.user_id == user_id)).any
            (fun t2 => t2.category == "College Planning")) = true →
          (((db.paths.filter (fun r => r.user_id == user_id)).map
              (fun r => if r.id == tid && r.user_id == user_id then
                { r with is_completed := true } else r)).any
            (fun t2 => t2.category == "College Planning")) = true := by
        intro hany
        rw [List.any_eq_true] at hany ⊢
        obtain ⟨x, hx, hcat⟩ := hany
        refine ⟨_, List.mem_map_of_mem _ hx, ?_⟩
        by_cases hcond : (x.id == tid && x.user_id == user_id) = true <;>
          simp [hcond] <;> simpa using hcat
      have hcntc : ∀ c : String,
          ((db.paths.filter (fun r => r.user_id == user_id)).filter
            (fun t2 => t2.is_completed && t2.category == c)).length ≤
          (((db.paths.filter (fun r => r.user_id == user_id)).map
              (fun r => if r.id == tid && r.user_id == user_id then
                { r with is_completed := true } else r)).filter
            (fun t2 => t2.is_completed && t2.category == c)).length := by
        intro c
        rw [← List.countP_eq_length_filter, ← List.countP_eq_length_filter,
          List.countP_map]
        refine List.countP_mono_left (fun x hx hpx => ?_)
        have hxcat : x.category == c := by
          have := hpx
          simp only [Bool.and_eq_true] at this
          exact this.2
        have hxdone : x.is_completed = true := by
          simp only [Bool.and_eq_true] at hpx
          exact hpx.1
        by_cases hcond : (x.id == tid && x.user_id == user_id) = true <;>
          simp [Function.comp, hcond, hxdone, hxcat]
      have hcnt :
          ((db.paths.filter (fun r => r.user_id == user_id)).filter
            (fun t2 => t2.is_completed && t2.category == "Test Prep")).length +
          ((db.paths.filter (fun r => r.user_id == user_id)).filter
            (fun t2 => t2.is_completed && t2.category == "College Planning")).length ≤
          (((db.paths.filter (fun r => r.user_id == user_id)).map
              (fun r => if r.id == tid && r.user_id == user_id then
                { r with is_completed := true } else r)).filter
            (fun t2 => t2.is_completed && t2.category == "Test Prep")).length +
          (((db.paths.filter (fun r => r.user_id == user_id)).map
              (fun r => if r.id == tid && r.user_id == user_id then
                { r with is_completed := true } else r)).filter
            (fun t2 => t2.is_completed && t2.category == "College Planning")).length :=
        Nat.add_le_add (hcntc "Test Prep") (hcntc "College Planning")
      rcases hmem with ⟨rfl, hc⟩ | ⟨rfl, hc⟩ | ⟨rfl, hc⟩ | ⟨rfl, hc⟩ |
        ⟨rfl, hc⟩ | ⟨rfl, hc⟩ | ⟨rfl, hc⟩ | ⟨rfl, hc⟩ | ⟨rfl, hc⟩
      · exact Or.inl ⟨rfl, hanyTP hc⟩
      · exact Or.inr (Or.inl ⟨rfl, hanyCP hc⟩)
      · exact Or.inr (Or.inr (Or.inl ⟨rfl, le_trans hc hcnt⟩))
      · exact Or.inr (Or.inr (Or.inr (Or.inl ⟨rfl, le_trans hc hcnt⟩)))
      · exact Or.inr (Or.inr (Or.inr (Or.inr (Or.inl ⟨rfl, le_trans hc hcnt⟩))))
      · exact absurd hmem7 (by decide)
      · exact absurd hmem7 (by decide)
      · refine Or.inr (Or.inr (Or.inr (Or.inr (Or.inr (Or.inr (Or.inr
          (Or.inl ⟨rfl, ?_⟩)))))))
        exact le_trans hc (Nat.le_add_right _ _)
      · refine Or.inr (Or.inr (Or.inr (Or.inr (Or.inr (Or.inr (Or.inr
          (Or.inr ⟨rfl, ?_⟩)))))))
        exact le_trans hc (Nat.le_add_right _ _)
  · intro db1 b hapi hcnt
    rcases hfg : db1.gamification_stats.filter
        (fun g2 => g2.user_id == user_id) with _ | ⟨g1, gr1⟩ <;>
      (rw [dashboard_achievements_eq, hfg, mem_earned_iff];
       exact Or.inr (Or.inr (Or.inr (Or.inl ⟨rfl, hcnt⟩))))

/-- Witness for C5_achievements: after the 10th completion on a concrete
database the `task_master_10` achievement is shown. -/
theorem C5_achievements_witness :
    ∃ p : DB × Bool,
      api_update_task_status wTenDb 1 "complete" (some 10) 20 = some p ∧
      "task_master_10" ∈ (dashboard_achievements p.1 1).2 := by
  obtain ⟨-, -, h3⟩ := C5_achievements wTenDb 1 10 20
  exact ⟨_, rfl, h3 _ _ rfl (by decide)⟩


theorem map_eq_self_of {α : Type} (l : List α) (f : α → α)
    (h : ∀ x ∈ l, f x = x) : l.map f = l := by
  induction l with
  | nil => rfl
  | cons a t ih =>
    rw [List.map_cons, h a (List.mem_cons_self a t),
      ih (fun x hx => h x (List.mem_cons_of_mem a hx))]

/-- C8 is refuted on the code: the due-date update and the subtask toggle
modify rows owned by another user (here user 2, while every session caller
is some other user, e.g. user 1 — the handlers never consult the caller at
all), instead of leaving them unchanged. -/
theorem C8_counterexample :
    otherUsersRow.user_id = 2 ∧
    (update_task_deadline otherUsersDb (some 1) (some "2099-01-01")).1.paths ≠
      otherUsersDb.paths ∧
    (update_subtask otherUsersDb (some 1) true).1.subtasks ≠
      otherUsersDb.subtasks := by decide

/-- C8 (amended): the due-date update and the subtask toggle perform no
ownership check — they update every row matching the given id no matter who
owns it; an absent or null id is a silent no-op; and both handlers always
report success (no 5xx). -/
theorem C8_no_ownership_check (db : DB) (taskId : Option Nat)
    (dueDate : Option String) (subtaskId : Option Nat) (v : Bool) :
    (update_task_deadline db taskId dueDate).2 = true ∧
    (update_subtask db subtaskId v).2 = true ∧
    ((∀ r ∈ db.paths, taskId ≠ some r.id) →
      (update_task_deadline db taskId dueDate).1 = db) ∧
    (∀ (i : Nat) (r : PathRow), db.paths[i]? = some r →
      (update_task_deadline db taskId dueDate).1.paths[i]? =
        some (if taskId = some r.id then { r with due_date := dueDate }
              else r)) ∧
    ((∀ s ∈ db.subtasks, subtaskId ≠ some s.id) →
      (update_subtask db subtaskId v).1 = db) ∧
    (∀ (i : Nat) (s : SubtaskRow), db.subtasks[i]? = some s →
      (update_subtask db subtaskId v).1.subtasks[i]? =
        some (if subtaskId = some s.id then { s with is_completed := v }
              else s)) := by
  refine ⟨rfl, rfl, ?_, ?_, ?_, ?_⟩
  · intro hnone
    unfold update_task_deadline
    simp only
    rw [map_eq_self_of _ _ (fun x hx => by simp [hnone x hx])]
  · intro i r hi
    unfold update_task_deadline
    simp only [List.getElem?_map, hi, Option.map_some]
    by_cases hc : taskId = some r.id <;> simp [hc]
  · intro hnone
    unfold update_subtask
    simp only
    rw [map_eq_self_of _ _ (fun x hx => by simp [hnone x hx])]
  · intro i s hi
    unfold update_subtask
    simp only [List.getElem?_map, hi, Option.map_some]
    by_cases hc : subtaskId = some s.id <;> simp [hc]

/-- Witness for C8_no_ownership_check: user 2's task row is rewritten and
user 2's subtask row is toggled although the handlers were reached by a
different caller. -/
theorem C8_no_ownership_check_witness :
    (update_task_deadline otherUsersDb (some 1) (some "2099-01-01")).1.paths[0]? =
      some { otherUsersRow with due_date := some "2099-01-01" } ∧
    (update_subtask otherUsersDb (some 1) true).2 = true := by
  obtain ⟨h1, h2, h3, h4, h5, h6⟩ :=
    C8_no_ownership_check otherUsersDb (some 1) (some "2099-01-01") (some 1) true
  refine ⟨?_, h2⟩
  have h := h4 0 otherUsersRow rfl
  simpa using h


theorem deactivate_filter_nil (db : DB) (user_id : Nat) (c : String) :
    (deactivate_paths db user_id c).paths.filter
      (fun r => r.user_id == user_id && r.category == c && r.is_active) = [] := by
  rw [List.filter_eq_nil_iff]
  intro a ha
  unfold deactivate_paths at ha
  simp only [List.mem_map] at ha
  obtain ⟨x, hx, rfl⟩ := ha
  by_cases hcond : (x.user_id == user_id && x.category == c && x.is_active) = true <;>
    simp [hcond]

/-- C1 is violated by a bug in the code: whenever the Test-Prep fallback is
reached (no API key, a collaborator error, or an empty task list),
`get_mock_tasks_reliably` raises `ValueError` from
`random.sample([...2 elements...], 3)`; the regeneration aborts with an
error AFTER deactivating the previous generation, leaving the user with
zero active Test-Prep tasks instead of a non-empty fallback generation. -/
theorem C1_fallback_crash (db : DB) (user_id now : Nat) (ai : AIOutcome)
    (h : ai = AIOutcome.unavailable ∨ ai = AIOutcome.failure ∨
      ai = AIOutcome.responded []) :
    (generate_and_save_new_test_path db user_id now ai).2 =
      Except.error "Sample larger than population or is negative" ∧
    (generate_and_save_new_test_path db user_id now ai).1.paths.filter
      (fun r => r.user_id == user_id && r.category == "Test Prep" &&
        r.is_active) = [] := by
  have hmock : get_test_prep_ai_tasks ai =
      Except.error "Sample larger than population or is negative" := by
    rcases h with rfl | rfl | rfl <;> rfl
  simp only [generate_and_save_new_test_path, hmock]
  exact ⟨trivial, deactivate_filter_nil db user_id "Test Prep"⟩

/-- Witness for C1_fallback_crash: a concrete regeneration with the API key
absent errors out and leaves no active Test-Prep tasks. -/
theorem C1_fallback_crash_witness :
    (generate_and_save_new_test_path wDb 1 5 AIOutcome.unavailable).2 =
      Except.error "Sample larger than population or is negative" ∧
    (generate_and_save_new_test_path wDb 1 5 AIOutcome.unavailable).1.paths.filter
      (fun r => r.user_id == 1 && r.category == "Test Prep" &&
        r.is_active) = [] :=
  C1_fallback_crash wDb 1 5 AIOutcome.unavailable (Or.inl rfl)


theorem mem_mkQuestionRows (quiz_id : Nat) :
    ∀ (n : Nat) (qs : List GenQuizQuestion),
      ∀ q ∈ mkQuestionRows quiz_id n qs, q.quiz_id = quiz_id := by
  intro n qs
  induction qs generalizing n with
  | nil => intro q hq; simp [mkQuestionRows] at hq
  | cons a t ih =>
    intro q hq
    rcases List.mem_cons.mp hq with rfl | hmem
    · rfl
    · exact ih (n + 1) q hmem

theorem mkQuestionRows_payload (quiz_id : Nat) :
    ∀ (n : Nat) (qs : List GenQuizQuestion),
      (mkQuestionRows quiz_id n qs).map
        (fun q => (q.question_text, q.options, q.correct_option,
          q.explanation)) = qs.map qGenData := by
  intro n qs
  induction qs generalizing n with
  | nil => rfl
  | cons a t ih => simp [mkQuestionRows, ih (n + 1), qGenData]

theorem questions_foldl (quiz_id : Nat) (qs : List GenQuizQuestion) :
    ∀ d : DB,
      qs.foldl (fun d q =>
        { d with
          quiz_questions := d.quiz_questions ++
            [{ id := d.next_question_id, quiz_id := quiz_id,
               question_text := q.question_text, options := q.options,
               correct_option := q.correct_option,
               explanation := q.explanation }],
          next_question_id := d.next_question_id + 1 }) d =
      { d with
        quiz_questions := d.quiz_questions ++
          mkQuestionRows quiz_id d.next_question_id qs,
        next_question_id := d.next_question_id + qs.length } := by
  induction qs with
  | nil => intro d; simp [mkQuestionRows]
  | cons a t ih =>
    intro d
    rw [List.foldl_cons, ih]
    simp [mkQuestionRows, List.append_assoc]
    omega


theorem save_one_link_case (db : DB) (user_id now idx : Nat) (task : GenTask)
    (h : task.quiz_content = none ∨ task.task_format ≠ "quiz")
    (hwf : db.WF) :
    save_one_test_task db user_id now idx task =
      ({ db with
          paths := db.paths ++
            [{ id := db.next_path_id, user_id := user_id,
               task_order := idx + 1, description := task.description,
               is_completed := false, is_active := true, created_at := now,
               ttype := task.ttype, stat_to_update := task.stat_to_update,
               category := "Test Prep", due_date := none,
               is_user_added := false, reason := task.reason,
               task_format := "link", task_content_id := none }],
          next_path_id := db.next_path_id + 1 },
       { id := db.next_path_id, description := task.description,
         reason := task.reason, ttype := task.ttype,
         stat_to_update := task.stat_to_update, is_completed := false,
         task_format := "link", task_content_id := none }) := by
  have hquiz : (task.task_format == "quiz" && task.quiz_content.isSome) = false := by
    rcases h with h | h
    · simp [h]
    · simp [h]
  unfold save_one_test_task
  simp only [hquiz, Bool.false_eq_true, if_false]
  rcases h2 : task.quiz_content with _ | qc
  · simp only [List.filter_append]
    rw [List.filter_eq_nil_iff.mpr (fun r hr => by
      have := hwf.paths_id_lt r hr
      simp; omega)]
    simp
  · have hfmt : (task.task_format == "quiz") = false := by
      rcases h with h | h
      · rw [h] at h2; cases h2
      · simp [h]
    simp only [hfmt, Bool.false_eq_true, if_false, List.filter_append]
    rw [List.filter_eq_nil_iff.mpr (fun r hr => by
      have := hwf.paths_id_lt r hr
      simp; omega)]
    simp


theorem save_one_quiz_case (db : DB) (user_id now idx : Nat) (task : GenTask)
    (qc : GenQuizContent) (hfmt : task.task_format = "quiz")
    (hqc : task.quiz_content = some qc) (hwf : db.WF) :
    save_one_test_task db user_id now idx task =
      ({ db with
          paths := db.paths ++
            [{ id := db.next_path_id, user_id := user_id,
               task_order := idx + 1, description := task.description,
               is_completed := false, is_active := true, created_at := now,
               ttype := task.ttype, stat_to_update := task.stat_to_update,
               category := "Test Prep", due_date := none,
               is_user_added := false, reason := task.reason,
               task_format := "quiz",
               task_content_id := some db.next_quiz_id }],
          quizzes := db.quizzes ++
            [{ id := db.next_quiz_id, task_id := db.next_path_id,
               title := qc.title }],
          quiz_questions := db.quiz_questions ++
            mkQuestionRows db.next_quiz_id db.next_question_id qc.questions,
          next_path_id := db.next_path_id + 1,
          next_quiz_id := db.next_quiz_id + 1,
          next_question_id := db.next_question_id + qc.questions.length },
       { id := db.next_path_id, description := task.description,
         reason := task.reason, ttype := task.ttype,
         stat_to_update := task.stat_to_update, is_completed := false,
         task_format := "quiz",
         task_content_id := some db.next_quiz_id }) := by
  have hquiz : (task.task_format == "quiz" && task.quiz_content.isSome) = true := by
    simp [hfmt, hqc]
  unfold save_one_test_task
  simp only [hquiz, if_true, hqc, hfmt]
  rw [questions_foldl]
  simp only [List.map_append, List.map_cons, List.map_nil, beq_self_eq_true,
    if_true]
  rw [map_eq_self_of db.paths _ (fun r hr => by
    have := hwf.paths_id_lt r hr
    simp only [ite_eq_right_iff]
    intro hb
    simp at hb
    omega)]
  simp only [List.filter_append]
  rw [List.filter_eq_nil_iff.mpr (fun r hr => by
    have := hwf.paths_id_lt r hr
    simp; omega)]
  simp


theorem wf_deactivate (db : DB) (user_id : Nat) (c : String) (hwf : db.WF) :
    (deactivate_paths db user_id c).WF := by
  refine ⟨hwf.next_path_pos, ?_, ?_, ?_, hwf.quizzes_id_lt,
    hwf.questions_quiz_lt⟩ <;>
  · intro r hr
    unfold deactivate_paths at hr
    simp only [List.mem_map] at hr
    obtain ⟨x, hx, rfl⟩ := hr
    by_cases hcond : (x.user_id == user_id && x.category == c && x.is_active) = true <;>
      simp only [hcond, if_true, Bool.false_eq_true, if_false]
    · first
      | exact hwf.paths_id_lt x hx
      | exact hwf.paths_id_pos x hx
      | exact hwf.paths_content_lt x hx
    · first
      | exact hwf.paths_id_lt x hx
      | exact hwf.paths_id_pos x hx
      | exact hwf.paths_content_lt x hx

theorem wf_logActivity (db : DB) (user_id : Nat) (a : String)
    (d : List (String × String)) (hwf : db.WF) :
    (logActivity db user_id a d).WF :=
  ⟨hwf.next_path_pos, hwf.paths_id_lt, hwf.paths_id_pos,
   hwf.paths_content_lt, hwf.quizzes_id_lt, hwf.questions_quiz_lt⟩

theorem save_one_summary (db : DB) (user_id now idx : Nat) (task : GenTask)
    (hwf : db.WF) :
    ∃ row : PathRow,
      (save_one_test_task db user_id now idx task).1.paths =
        db.paths ++ [row] ∧
      row.id = db.next_path_id ∧ row.user_id = user_id ∧
      row.task_order = idx + 1 ∧ row.category = "Test Prep" ∧
      row.is_active = true ∧ row.is_completed = false ∧
      row.created_at = now ∧
      (save_one_test_task db user_id now idx task).1.next_path_id =
        db.next_path_id + 1 ∧
      db.next_quiz_id ≤
        (save_one_test_task db user_id now idx task).1.next_quiz_id ∧
      (save_one_test_task db user_id now idx task).1.WF ∧
      (save_one_test_task db user_id now idx task).2.id = db.next_path_id := by
  rcases hqc : task.quiz_content with _ | qc
  · rw [save_one_link_case db user_id now idx task (Or.inl hqc) hwf]
    refine ⟨_, rfl, rfl, rfl, rfl, rfl, rfl, rfl, rfl, rfl, Nat.le_refl _,
      ?_, rfl⟩
    refine ⟨Nat.succ_pos _, ?_, ?_, ?_, hwf.quizzes_id_lt,
      hwf.questions_quiz_lt⟩ <;> intro r hr <;>
      rcases List.mem_append.mp hr with hold | hnew
    · exact Nat.lt_succ_of_lt (hwf.paths_id_lt r hold)
    · rcases List.mem_singleton.mp hnew with rfl
      exact Nat.lt_succ_self _
    · exact hwf.paths_id_pos r hold
    · rcases List.mem_singleton.mp hnew with rfl
      exact hwf.next_path_pos
    · exact hwf.paths_content_lt r hold
    · rcases List.mem_singleton.mp hnew with rfl
      intro q hq
      cases hq
  · by_cases hfmt : task.task_format = "quiz"
    · rw [save_one_quiz_case db user_id now idx task qc hfmt hqc hwf]
      refine ⟨_, rfl, rfl, rfl, rfl, rfl, rfl, rfl, rfl, rfl,
        Nat.le_succ _, ?_, rfl⟩
      refine ⟨Nat.succ_pos _, ?_, ?_, ?_, ?_, ?_⟩ <;> intro r hr <;>
        rcases List.mem_append.mp hr with hold | hnew
      · exact Nat.lt_succ_of_lt (hwf.paths_id_lt r hold)
      · rcases List.mem_singleton.mp hnew with rfl
        exact Nat.lt_succ_self _
      · exact hwf.paths_id_pos r hold
      · rcases List.mem_singleton.mp hnew with rfl
        exact hwf.next_path_pos
      · exact fun q hq =>
          Nat.lt_succ_of_lt (hwf.paths_content_lt r hold q hq)
      · rcases List.mem_singleton.mp hnew with rfl
        intro q hq
        cases hq
        exact Nat.lt_succ_self _
      · exact Nat.lt_succ_of_lt (hwf.quizzes_id_lt r hold)
      · rcases List.mem_singleton.mp hnew with rfl
        exact Nat.lt_succ_self _
      · exact Nat.lt_succ_of_lt (hwf.questions_quiz_lt r hold)
      · rw [mem_mkQuestionRows db.next_quiz_id db.next_question_id
          qc.questions r hnew]
        exact Nat.lt_succ_self _
    · rw [save_one_link_case db user_id now idx task (Or.inr hfmt) hwf]
      refine ⟨_, rfl, rfl, rfl, rfl, rfl, rfl, rfl, rfl, rfl, Nat.le_refl _,
        ?_, rfl⟩
      refine ⟨Nat.succ_pos _, ?_, ?_, ?_, hwf.quizzes_id_lt,
        hwf.questions_quiz_lt⟩ <;> intro r hr <;>
        rcases List.mem_append.mp hr with hold | hnew
      · exact Nat.lt_succ_of_lt (hwf.paths_id_lt r hold)
      · rcases List.mem_singleton.mp hnew with rfl
        exact Nat.lt_succ_self _
      · exact hwf.paths_id_pos r hold
      · rcases List.mem_singleton.mp hnew with rfl
        exact hwf.next_path_pos
      · exact hwf.paths_content_lt r hold
      · rcases List.mem_singleton.mp hnew with rfl
        intro q hq
        cases hq


theorem save_test_tasks_paths (user_id now : Nat) :
    ∀ (ts : List GenTask) (db : DB) (i : Nat), db.WF →
      ∃ newRows : List PathRow,
        (save_test_tasks user_id now db i ts).1.paths = db.paths ++ newRows ∧
        newRows.length = ts.length ∧
        (∀ r ∈ newRows, r.user_id = user_id ∧ r.category = "Test Prep" ∧
          r.is_active = true ∧ r.is_completed = false ∧
          r.created_at = now ∧ db.next_path_id ≤ r.id) ∧
        (save_test_tasks user_id now db i ts).1.WF ∧
        db.next_path_id ≤
          (save_test_tasks user_id now db i ts).1.next_path_id := by
  intro ts
  induction ts with
  | nil =>
    intro db i hwf
    exact ⟨[], by simp [save_test_tasks], rfl, by simp, hwf, Nat.le_refl _⟩
  | cons a t ih =>
    intro db i hwf
    obtain ⟨row, hpaths, hid, huser, horder, hcat, hact, hcomp, hcreat,
      hnext, hq, hwf1, hsid⟩ := save_one_summary db user_id now i a hwf
    obtain ⟨rows2, hpaths2, hlen2, hprops2, hwf2, hnext2⟩ :=
      ih (save_one_test_task db user_id now i a).1 (i + 1) hwf1
    refine ⟨row :: rows2, ?_, by simp [hlen2], ?_, ?_, ?_⟩
    · show (save_test_tasks user_id now
        (save_one_test_task db user_id now i a).1 (i + 1) t).1.paths = _
      rw [hpaths2, hpaths, List.append_assoc]
      rfl
    · intro r hr
      rcases List.mem_cons.mp hr with rfl | hmem
      · exact ⟨huser, hcat, hact, hcomp, hcreat, Nat.le_of_eq hid.symm⟩
      · obtain ⟨p1, p2, p3, p4, p5, p6⟩ := hprops2 r hmem
        exact ⟨p1, p2, p3, p4, p5, by omega⟩
    · exact hwf2
    · show db.next_path_id ≤ (save_test_tasks user_id now
        (save_one_test_task db user_id now i a).1 (i + 1) t).1.next_path_id
      omega


theorem get_test_prep_ok_len (ai : AIOutcome) (tasks : List GenTask)
    (h : get_test_prep_ai_tasks ai = Except.ok tasks) : 1 ≤ tasks.length := by
  rcases ai with _ | _ | ts
  · cases h
  · cases h
  · simp only [get_test_prep_ai_tasks] at h
    by_cases hlen : ts.length > 0
    · rw [if_pos hlen] at h
      cases h
      omega
    · rw [if_neg hlen] at h
      cases h

theorem generate_ok_spec (db : DB) (user_id now : Nat) (ai : AIOutcome)
    (saved : List SavedTask) (hwf : db.WF)
    (hok : (generate_and_save_new_test_path db user_id now ai).2 =
      Except.ok saved) :
    ∃ newRows : List PathRow,
      (generate_and_save_new_test_path db user_id now ai).1.paths =
        (deactivate_paths db user_id "Test Prep").paths ++ newRows ∧
      1 ≤ newRows.length ∧ newRows.length ≤ 5 ∧
      (∀ r ∈ newRows, r.user_id = user_id ∧ r.category = "Test Prep" ∧
        r.is_active = true ∧ r.created_at = now) ∧
      (generate_and_save_new_test_path db user_id now ai).1.WF := by
  rcases hai : get_test_prep_ai_tasks ai with e | tasks
  · simp only [generate_and_save_new_test_path, hai] at hok
    cases hok
  · have hlen := get_test_prep_ok_len ai tasks hai
    obtain ⟨newRows, hpaths, hlen2, hprops, hwf2, -⟩ :=
      save_test_tasks_paths user_id now (tasks.take 5)
        (deactivate_paths db user_id "Test Prep") 0
        (wf_deactivate db user_id "Test Prep" hwf)
    refine ⟨newRows, ?_, ?_, ?_, ?_, ?_⟩
    · simp only [generate_and_save_new_test_path, hai, logActivity]
      exact hpaths
    · rw [hlen2, List.length_take]
      omega
    · rw [hlen2, List.length_take]
      omega
    · intro r hr
      obtain ⟨p1, p2, p3, -, p5, -⟩ := hprops r hr
      exact ⟨p1, p2, p3, p5⟩
    · simp only [generate_and_save_new_test_path, hai]
      exact wf_logActivity _ user_id "path_generated" _ hwf2

theorem generate_ok_active (db : DB) (user_id now : Nat) (ai : AIOutcome)
    (saved : List SavedTask) (hwf : db.WF)
    (hok : (generate_and_save_new_test_path db user_id now ai).2 =
      Except.ok saved) :
    (∀ r ∈ db.paths,
      ∃ r2 ∈ (generate_and_save_new_test_path db user_id now ai).1.paths,
        r2.id = r.id ∧ eq_except_active r r2) ∧
    (∀ r ∈ (generate_and_save_new_test_path db user_id now ai).1.paths,
      r.user_id = user_id → r.category = "Test Prep" → r.is_active = true →
      r.created_at = now) ∧
    (1 ≤ ((generate_and_save_new_test_path db user_id now ai).1.paths.filter
      (fun r => r.user_id == user_id && r.category == "Test Prep" &&
        r.is_active)).length ∧
     ((generate_and_save_new_test_path db user_id now ai).1.paths.filter
      (fun r => r.user_id == user_id && r.category == "Test Prep" &&
        r.is_active)).length ≤ 5) ∧
    (generate_and_save_new_test_path db user_id now ai).1.WF := by
  obtain ⟨newRows, hpaths, h1, h5, hprops, hwf2⟩ :=
    generate_ok_spec db user_id now ai saved hwf hok
  have hfilnew : newRows.filter
      (fun r => r.user_id == user_id && r.category == "Test Prep" &&
        r.is_active) = newRows := by
    rw [List.filter_eq_self]
    intro r hr
    obtain ⟨p1, p2, p3, -⟩ := hprops r hr
    simp [p1, p2, p3]
  refine ⟨?_, ?_, ?_, hwf2⟩
  · intro r hr
    refine ⟨if r.user_id == user_id && r.category == "Test Prep" &&
        r.is_active then { r with is_active := false } else r, ?_, ?_, ?_⟩
    · rw [hpaths]
      refine List.mem_append_left _ ?_
      unfold deactivate_paths
      simpa using List.mem_map_of_mem _ hr
    · by_cases hc : (r.user_id == user_id && r.category == "Test Prep" &&
        r.is_active) = true <;> simp [hc]
    · by_cases hc : (r.user_id == user_id && r.category == "Test Prep" &&
        r.is_active) = true <;> unfold eq_except_active <;> simp [hc]
  · intro r hr hu hc ha
    rw [hpaths] at hr
    rcases List.mem_append.mp hr with hold | hnew
    · unfold deactivate_paths at hold
      simp only [List.mem_map] at hold
      obtain ⟨x, hx, hxr⟩ := hold
      by_cases hcond : (x.user_id == user_id && x.category == "Test Prep" &&
          x.is_active) = true
      · rw [if_pos hcond] at hxr
        subst hxr
        cases ha
      · rw [if_neg hcond] at hxr
        subst hxr
        simp [hu, hc, ha] at hcond
    · exact (hprops r hnew).2.2.2
  · rw [hpaths, List.filter_append, deactivate_filter_nil, hfilnew]
    simpa using ⟨h1, h5⟩


theorem eq_except_active_trans (a b c : PathRow)
    (h1 : eq_except_active a b) (h2 : eq_except_active b c) :
    eq_except_active a c := by
  unfold eq_except_active at *
  rcases h1 with rfl | rfl
  · exact h2
  · rcases h2 with rfl | rfl
    · exact Or.inr rfl
    · exact Or.inr rfl

/-- C6: every successful Test-Prep regeneration deactivates the previous
generation and inserts the new one; across any non-empty sequence of
successful regenerations no task row is ever deleted (each survives with at
most its `is_active` flag dropped), every still-active row of the pair
belongs to the final run (exactly one active generation, the earlier N−1
inactive), and the active generation holds between 1 and 5 tasks. -/
theorem C6_generation_turnover (user_id : Nat) :
    ∀ (runs : List (AIOutcome × Nat)) (db : DB), db.WF → runs ≠ [] →
      (run_test_regens user_id db runs).2 = true →
      ((∀ r ∈ db.paths,
        ∃ r2 ∈ (run_test_regens user_id db runs).1.paths,
          r2.id = r.id ∧ eq_except_active r r2) ∧
       (∀ r ∈ (run_test_regens user_id db runs).1.paths,
         r.user_id = user_id → r.category = "Test Prep" →
         r.is_active = true →
         (runs.getLast?).map Prod.snd = some r.created_at) ∧
       1 ≤ ((run_test_regens user_id db runs).1.paths.filter
         (fun r => r.user_id == user_id && r.category == "Test Prep" &&
           r.is_active)).length ∧
       ((run_test_regens user_id db runs).1.paths.filter
         (fun r => r.user_id == user_id && r.category == "Test Prep" &&
           r.is_active)).length ≤ 5) := by
  intro runs
  induction runs with
  | nil => intro db _ hne _; exact absurd rfl hne
  | cons hd rest ih =>
    intro db hwf hne hok
    obtain ⟨ai, now⟩ := hd
    simp only [run_test_regens] at hok ⊢
    rcases hp2 : (generate_and_save_new_test_path db user_id now ai).2 with e | saved
    · rw [hp2] at hok
      simp at hok
    · rw [hp2] at hok
      simp only [Bool.true_and] at hok
      have hstep := generate_ok_active db user_id now ai saved hwf hp2
      obtain ⟨hsurv, hactive, hcount, hwf1⟩ := hstep
      cases rest with
      | nil =>
        simp only [run_test_regens]
        refine ⟨hsurv, ?_, hcount⟩
        intro r hr hu hc ha
        rw [List.getLast?_singleton]
        simp [hactive r hr hu hc ha]
      | cons hd2 rest2 =>
        have hne2 : hd2 :: rest2 ≠ [] := by simp
        obtain ⟨hsurv2, hactive2, hcount2⟩ :=
          ih (generate_and_save_new_test_path db user_id now ai).1 hwf1
            hne2 hok
        refine ⟨?_, ?_, hcount2⟩
        · intro r hr
          obtain ⟨r2, hr2mem, hr2id, hr2eq⟩ := hsurv r hr
          obtain ⟨r3, hr3mem, hr3id, hr3eq⟩ := hsurv2 r2 hr2mem
          exact ⟨r3, hr3mem, by rw [hr3id, hr2id],
            eq_except_active_trans r r2 r3 hr2eq hr3eq⟩
        · intro r hr hu hc ha
          rw [List.getLast?_cons_cons]
          exact hactive2 r hr hu hc ha

/-- Witness for C6_generation_turnover: two successful regenerations on a
concrete database leave exactly the second run's tasks active. -/
theorem C6_generation_turnover_witness :
    (∀ r ∈ wDb.paths,
      ∃ r2 ∈ (run_test_regens 1 wDb
          [(AIOutcome.responded [wGenLinkTask], 7),
           (AIOutcome.responded [wGenLinkTask, wGenLinkTask], 8)]).1.paths,
        r2.id = r.id ∧ eq_except_active r r2) ∧
    (∀ r ∈ (run_test_regens 1 wDb
        [(AIOutcome.responded [wGenLinkTask], 7),
         (AIOutcome.responded [wGenLinkTask, wGenLinkTask], 8)]).1.paths,
      r.user_id = 1 → r.category = "Test Prep" → r.is_active = true →
      ([(AIOutcome.responded [wGenLinkTask], 7),
        (AIOutcome.responded [wGenLinkTask, wGenLinkTask], 8)].getLast?).map
          Prod.snd = some r.created_at) ∧
    1 ≤ ((run_test_regens 1 wDb
        [(AIOutcome.responded [wGenLinkTask], 7),
         (AIOutcome.responded [wGenLinkTask, wGenLinkTask], 8)]).1.paths.filter
      (fun r => r.user_id == 1 && r.category == "Test Prep" &&
        r.is_active)).length ∧
    ((run_test_regens 1 wDb
        [(AIOutcome.responded [wGenLinkTask], 7),
         (AIOutcome.responded [wGenLinkTask, wGenLinkTask], 8)]).1.paths.filter
      (fun r => r.user_id == 1 && r.category == "Test Prep" &&
        r.is_active)).length ≤ 5 :=
  C6_generation_turnover 1
    [(AIOutcome.responded [wGenLinkTask], 7),
     (AIOutcome.responded [wGenLinkTask, wGenLinkTask], 8)] wDb
    ⟨by decide, by decide, by decide, by decide, by decide, by decide⟩
    (by decide) (by decide)


theorem save_one_quiz_fetch (db : DB) (user_id now idx : Nat)
    (task : GenTask) (qc : GenQuizContent) (hfmt : task.task_format = "quiz")
    (hqc : task.quiz_content = some qc) (hwf : db.WF) :
    get_quiz (save_one_test_task db user_id now idx task).1 user_id
        db.next_path_id =
      Except.ok
        { title := qc.title,
          questions := (mkQuestionRows db.next_quiz_id db.next_question_id
            qc.questions).map (fun q =>
              { id := q.id, question_text := q.question_text,
                options := q.options, correct_option := q.correct_option,
                explanation := q.explanation }) } := by
  rw [save_one_quiz_case db user_id now idx task qc hfmt hqc hwf]
  have hnil1 : db.paths.filter
      (fun r => r.id == db.next_path_id && r.user_id == user_id) = [] :=
    List.filter_eq_nil_iff.mpr (fun r hr => by
      have := hwf.paths_id_lt r hr
      simp
      omega)
  have hnil2 : db.quizzes.filter (fun z => z.id == db.next_quiz_id) = [] :=
    List.filter_eq_nil_iff.mpr (fun z hz => by
      have := hwf.quizzes_id_lt z hz
      simp
      omega)
  have hnil3 : db.quiz_questions.filter
      (fun q => q.quiz_id == db.next_quiz_id) = [] :=
    List.filter_eq_nil_iff.mpr (fun q hq => by
      have := hwf.questions_quiz_lt q hq
      simp
      omega)
  have hself : (mkQuestionRows db.next_quiz_id db.next_question_id
      qc.questions).filter (fun q => q.quiz_id == db.next_quiz_id) =
      mkQuestionRows db.next_quiz_id db.next_question_id qc.questions :=
    List.filter_eq_self.mpr (fun q hq => by
      rw [mem_mkQuestionRows db.next_quiz_id db.next_question_id
        qc.questions q hq]
      simp)
  simp [get_quiz, List.filter_append, hnil1, hnil2, hnil3, hself]


theorem get_quiz_extend (db db2 : DB) (u2 tid : Nat) (rows : List PathRow)
    (zs : List QuizRow) (qs : List QuizQuestionRow)
    (hp : db2.paths = db.paths ++ rows)
    (hz : db2.quizzes = db.quizzes ++ zs)
    (hq : db2.quiz_questions = db.quiz_questions ++ qs)
    (hrow : ∀ r ∈ rows, r.id ≠ tid)
    (hcontent : ∀ t ∈ db.paths, ∀ cq, t.task_content_id = some cq →
      (∀ z ∈ zs, z.id ≠ cq) ∧ (∀ q ∈ qs, q.quiz_id ≠ cq)) :
    get_quiz db2 u2 tid = get_quiz db u2 tid := by
  unfold get_quiz
  rw [hp, List.filter_append,
    show rows.filter (fun r => r.id == tid && r.user_id == u2) = [] from
      List.filter_eq_nil_iff.mpr (fun r hr => by simp [hrow r hr]),
    List.append_nil]
  rcases hres : db.paths.filter (fun r => r.id == tid && r.user_id == u2) with
    _ | ⟨t, tail⟩
  · rw [hres]
  · rw [hres]
    have htmem : t ∈ db.paths :=
      List.mem_of_mem_filter (hres ▸ List.mem_cons_self t tail)
    by_cases hfmt : (t.task_format != "quiz") = true
    · simp only [hfmt, if_true]
    · simp only [hfmt, Bool.false_eq_true, if_false]
      rcases hcid : t.task_content_id with _ | cq
      · rfl
      · obtain ⟨hzs, hqs⟩ := hcontent t htmem cq hcid
        simp only []
        rw [hz, List.filter_append,
          show zs.filter (fun z => z.id == cq) = [] from
            List.filter_eq_nil_iff.mpr (fun z hzm => by simp [hzs z hzm]),
          List.append_nil]
        rcases hzres : db.quizzes.filter (fun z => z.id == cq) with _ | ⟨z, ztail⟩
        · rw [hzres]
        · rw [hzres]
          simp only []
          rw [hq, List.filter_append,
            show qs.filter (fun q => q.quiz_id == cq) = [] from
              List.filter_eq_nil_iff.mpr (fun q hqm => by simp [hqs q hqm]),
            List.append_nil]

theorem save_one_preserves_get_quiz (db : DB) (user_id now idx : Nat)
    (task : GenTask) (u2 tid : Nat) (htid : tid < db.next_path_id)
    (hwf : db.WF) :
    get_quiz (save_one_test_task db user_id now idx task).1 u2 tid =
      get_quiz db u2 tid := by
  rcases hqc : task.quiz_content with _ | qc
  · rw [save_one_link_case db user_id now idx task (Or.inl hqc) hwf]
    refine get_quiz_extend db _ u2 tid _ [] [] rfl (by simp) (by simp)
      ?_ ?_
    · intro r hr
      rcases List.mem_singleton.mp hr with rfl
      simp
      omega
    · intro t ht cq hcq
      exact ⟨by simp, by simp⟩
  · by_cases hfmt : task.task_format = "quiz"
    · rw [save_one_quiz_case db user_id now idx task qc hfmt hqc hwf]
      refine get_quiz_extend db _ u2 tid _ _ _ rfl rfl rfl ?_ ?_
      · intro r hr
        rcases List.mem_singleton.mp hr with rfl
        simp
        omega
      · intro t ht cq hcq
        have hlt := hwf.paths_content_lt t ht cq hcq
        constructor
        · intro z hz
          rcases List.mem_singleton.mp hz with rfl
          simp
          omega
        · intro q hq
          rw [mem_mkQuestionRows db.next_quiz_id db.next_question_id
            qc.questions q hq]
          omega
    · rw [save_one_link_case db user_id now idx task (Or.inr hfmt) hwf]
      refine get_quiz_extend db _ u2 tid _ [] [] rfl (by simp) (by simp)
        ?_ ?_
      · intro r hr
        rcases List.mem_singleton.mp hr with rfl
        simp
        omega
      · intro t ht cq hcq
        exact ⟨by simp, by simp⟩

theorem save_test_tasks_preserves_get_quiz (user_id now : Nat) :
    ∀ (ts : List GenTask) (db : DB) (i u2 tid : Nat), db.WF →
      tid < db.next_path_id →
      get_quiz (save_test_tasks user_id now db i ts).1 u2 tid =
        get_quiz db u2 tid := by
  intro ts
  induction ts with
  | nil => intro db i u2 tid _ _; rfl
  | cons a t ih =>
    intro db i u2 tid hwf htid
    obtain ⟨-, -, -, -, -, -, -, -, -, hnext, -, hwf1, -⟩ :=
      save_one_summary db user_id now i a hwf
    show get_quiz (save_test_tasks user_id now
      (save_one_test_task db user_id now i a).1 (i + 1) t).1 u2 tid = _
    rw [ih (save_one_test_task db user_id now i a).1 (i + 1) u2 tid hwf1
      (by omega)]
    exact save_one_preserves_get_quiz db user_id now i a u2 tid htid hwf


theorem get_quiz_logActivity (db : DB) (user_id : Nat) (a : String)
    (d : List (String × String)) (u2 tid : Nat) :
    get_quiz (logActivity db user_id a d) u2 tid = get_quiz db u2 tid := rfl

theorem save_test_tasks_fetch (user_id now : Nat) :
    ∀ (ts : List GenTask) (db : DB) (i j : Nat) (task : GenTask)
      (qc : GenQuizContent), db.WF →
      ts[j]? = some task → task.task_format = "quiz" →
      task.quiz_content = some qc →
      ∃ s, (save_test_tasks user_id now db i ts).2[j]? = some s ∧
        ∃ out, get_quiz (save_test_tasks user_id now db i ts).1 user_id s.id =
            Except.ok out ∧
          out.title = qc.title ∧
          out.questions.map qOutData = qc.questions.map qGenData := by
  intro ts
  induction ts with
  | nil => intro db i j task qc _ hj; simp at hj
  | cons a t ih =>
    intro db i j task qc hwf hj hfmt hqc
    obtain ⟨-, -, -, -, -, -, -, -, -, hnext, -, hwf1, hsid⟩ :=
      save_one_summary db user_id now i a hwf
    cases j with
    | zero =>
      simp only [List.getElem?_cons_zero, Option.some.injEq] at hj
      subst hj
      refine ⟨(save_one_test_task db user_id now i a).2, ?_, ?_⟩
      · show ((save_one_test_task db user_id now i a).2 ::
          (save_test_tasks user_id now
            (save_one_test_task db user_id now i a).1 (i + 1) t).2)[0]? = _
        rw [List.getElem?_cons_zero]
      have hfetch := save_one_quiz_fetch db user_id now i a qc hfmt hqc hwf
      have hpres := save_test_tasks_preserves_get_quiz user_id now t
        (save_one_test_task db user_id now i a).1 (i + 1) user_id
        db.next_path_id hwf1 (by omega)
      refine ⟨QuizOut.mk qc.title
        ((mkQuestionRows db.next_quiz_id db.next_question_id
          qc.questions).map (fun q => QuizQuestionOut.mk q.id
            q.question_text q.options q.correct_option q.explanation)),
        ?_, rfl, ?_⟩
      · show get_quiz (save_test_tasks user_id now
          (save_one_test_task db user_id now i a).1 (i + 1) t).1 user_id
          (save_one_test_task db user_id now i a).2.id = _
        rw [hsid, hpres, hfetch]
      · rw [List.map_map]
        exact mkQuestionRows_payload db.next_quiz_id db.next_question_id
          qc.questions
    | succ j2 =>
      simp only [List.getElem?_cons_succ] at hj
      obtain ⟨s, hs, out, hout, hta, hpay⟩ :=
        ih (save_one_test_task db user_id now i a).1 (i + 1) j2 task qc
          hwf1 hj hfmt hqc
      refine ⟨s, ?_, out, ?_, hta, hpay⟩
      · show ((save_one_test_task db user_id now i a).2 ::
          (save_test_tasks user_id now
            (save_one_test_task db user_id now i a).1 (i + 1) t).2)[j2 + 1]? =
          some s
        rw [List.getElem?_cons_succ]
        exact hs
      · show get_quiz (save_test_tasks user_id now
          (save_one_test_task db user_id now i a).1 (i + 1) t).1 user_id
          s.id = Except.ok out
        exact hout

/-- C9: a quiz created during generation with N questions is returned by
the quiz-fetch operation with exactly N questions, in creation order, with
each question's option list, correct-option index and explanation
preserved verbatim. -/
theorem C9_quiz_roundtrip (db : DB) (user_id now : Nat) (ts : List GenTask)
    (j : Nat) (task : GenTask) (qc : GenQuizContent) (hwf : db.WF)
    (hlen : 0 < ts.length)
    (hj : (ts.take 5)[j]? = some task) (hfmt : task.task_format = "quiz")
    (hqc : task.quiz_content = some qc) :
    ∃ saved, (generate_and_save_new_test_path db user_id now
        (AIOutcome.responded ts)).2 = Except.ok saved ∧
      ∃ s, saved[j]? = some s ∧
        ∃ out, get_quiz (generate_and_save_new_test_path db user_id now
            (AIOutcome.responded ts)).1 user_id s.id = Except.ok out ∧
          out.title = qc.title ∧
          out.questions.length = qc.questions.length ∧
          out.questions.map qOutData = qc.questions.map qGenData := by
  have hai : get_test_prep_ai_tasks (AIOutcome.responded ts) =
      Except.ok ts := by
    simp only [get_test_prep_ai_tasks]
    rw [if_pos hlen]
  obtain ⟨s, hs, out, hout, hta, hpay⟩ :=
    save_test_tasks_fetch user_id now (ts.take 5)
      (deactivate_paths db user_id "Test Prep") 0 j task qc
      (wf_deactivate db user_id "Test Prep" hwf) hj hfmt hqc
  have hgen2 : (generate_and_save_new_test_path db user_id now
      (AIOutcome.responded ts)).2 = Except.ok
        (save_test_tasks user_id now
          (deactivate_paths db user_id "Test Prep") 0 (ts.take 5)).2 := by
    simp only [generate_and_save_new_test_path, hai]
  have hquiz : get_quiz (generate_and_save_new_test_path db user_id now
      (AIOutcome.responded ts)).1 user_id s.id = Except.ok out := by
    simp only [generate_and_save_new_test_path, hai, get_quiz_logActivity]
    exact hout
  have hlen2 : out.questions.length = qc.questions.length := by
    have := congrArg List.length hpay
    simpa using this
  exact ⟨_, hgen2, s, hs, out, hquiz, hta, hlen2, hpay⟩

theorem wf_emptyDb : emptyDb.WF := by
  refine ⟨by decide, ?_, ?_, ?_, ?_, ?_⟩ <;> intro r hr <;> cases hr

/-- Witness for C9_quiz_roundtrip: generating from a response containing the
two-question mock quiz and fetching it back returns both questions
verbatim. -/
theorem C9_quiz_roundtrip_witness :
    ∃ saved, (generate_and_save_new_test_path emptyDb 1 5
        (AIOutcome.responded [mock_quiz_task])).2 = Except.ok saved ∧
      ∃ s, saved[0]? = some s ∧
        ∃ out, get_quiz (generate_and_save_new_test_path emptyDb 1 5
            (AIOutcome.responded [mock_quiz_task])).1 1 s.id =
            Except.ok out ∧
          out.title = "SAT Algebra Practice" ∧
          out.questions.length = 2 ∧
          out.questions.map qOutData =
            mock_quiz_task.quiz_content.iget.questions.map qGenData := by
  obtain ⟨saved, h1, s, h2, out, h3, h4, h5, h6⟩ :=
    C9_quiz_roundtrip emptyDb 1 5 [mock_quiz_task] 0 mock_quiz_task
      (mock_quiz_task.quiz_content.iget) wf_emptyDb (by decide) rfl rfl rfl
  exact ⟨saved, h1, s, h2, out, h3, h4, h5, h6⟩


/-- C7 is refuted on the code: a listing request that transparently triggers
generation returns task objects in a REDUCED shape — without the `due_date`,
`is_user_added` and `subtasks` fields that the plain listing case carries —
so the two cases do not share a response shape. -/
theorem C7_counterexample :
    "subtasks" ∉ firstObjKeys (api_tasks emptyDb 1 HttpMethod.get "Test Prep"
      (AIOutcome.responded [wGenLinkTask]) CollegeAIOutcome.failure 5).2 ∧
    "subtasks" ∈ firstObjKeys (api_tasks
      (api_tasks emptyDb 1 HttpMethod.get "Test Prep"
        (AIOutcome.responded [wGenLinkTask]) CollegeAIOutcome.failure 5).1
      1 HttpMethod.get "Test Prep" (AIOutcome.responded [wGenLinkTask])
      CollegeAIOutcome.failure 6).2 ∧
    firstObjKeys (api_tasks emptyDb 1 HttpMethod.get "Test Prep"
      (AIOutcome.responded [wGenLinkTask]) CollegeAIOutcome.failure 5).2 ≠
    firstObjKeys (api_tasks
      (api_tasks emptyDb 1 HttpMethod.get "Test Prep"
        (AIOutcome.responded [wGenLinkTask]) CollegeAIOutcome.failure 5).1
      1 HttpMethod.get "Test Prep" (AIOutcome.responded [wGenLinkTask])
      CollegeAIOutcome.failure 6).2 := by decide

/-- C7 (amended): with an active generation, a GET returns its rows sorted
by `task_order` (a permutation of the active rows), each serialized with the
full field set including nested `subtasks`; with no active generation, the
call transparently triggers Test-Prep generation and returns the freshly
persisted list — but in a reduced shape whose objects lack the `due_date`,
`is_user_added` and `subtasks` fields, so the two cases do NOT share a
response shape. -/
theorem C7_api_tasks_shape (db : DB) (user_id : Nat) (category : String)
    (ai : AIOutcome) (cai : CollegeAIOutcome) (now : Nat) :
    (active_path_rows db user_id category ≠ [] →
      api_tasks db user_id HttpMethod.get category ai cai now =
        (db, Except.ok (JVal.jarr ((sort_by_task_order
          (active_path_rows db user_id category)).map
          (listingTaskToJson db)))) ∧
      (sort_by_task_order (active_path_rows db user_id category)).Perm
        (active_path_rows db user_id category) ∧
      List.Sorted byTaskOrder
        (sort_by_task_order (active_path_rows db user_id category)) ∧
      (∀ v ∈ (sort_by_task_order (active_path_rows db user_id category)).map
          (listingTaskToJson db),
        v.keys = ["id", "description", "reason", "is_completed", "type",
          "stat_to_update", "due_date", "is_user_added", "subtasks",
          "task_format", "task_content_id"])) ∧
    (active_path_rows db user_id "Test Prep" = [] →
      ∀ saved, (generate_and_save_new_test_path db user_id now ai).2 =
        Except.ok saved →
      api_tasks db user_id HttpMethod.get "Test Prep" ai cai now =
        ((generate_and_save_new_test_path db user_id now ai).1,
         Except.ok (JVal.jarr (saved.map savedTaskToJson))) ∧
      (∀ v ∈ saved.map savedTaskToJson,
        v.keys = ["id", "description", "reason", "type", "stat_to_update",
          "is_completed", "task_format", "task_content_id"])) := by
  constructor
  · intro hne
    refine ⟨?_, List.perm_insertionSort byTaskOrder _,
      List.sorted_insertionSort byTaskOrder _, ?_⟩
    · simp only [api_tasks, List.isEmpty_eq_false.mpr hne,
        show (HttpMethod.get == HttpMethod.post) = false from rfl,
        Bool.or_false, Bool.false_eq_true, if_false]
    · intro v hv
      obtain ⟨r, -, rfl⟩ := List.mem_map.mp hv
      rfl
  · intro hemp saved hsaved
    constructor
    · simp only [api_tasks, hemp, List.isEmpty_nil, Bool.or_true, if_true,
        show ("Test Prep" == "College Planning") = false by decide,
        Bool.false_eq_true, if_false]
      rw [hsaved]
    · intro v hv
      obtain ⟨s, -, rfl⟩ := List.mem_map.mp hv
      rfl

/-- Witness for C7_api_tasks_shape: a concrete listing call returns the
sorted active rows, and a concrete generation-triggering call returns the
newly saved reduced-shape list. -/
theorem C7_api_tasks_shape_witness :
    api_tasks wDb 1 HttpMethod.get "Test Prep" AIOutcome.failure
      CollegeAIOutcome.failure 9 =
      (wDb, Except.ok (JVal.jarr ((sort_by_task_order
        (active_path_rows wDb 1 "Test Prep")).map
        (listingTaskToJson wDb)))) ∧
    api_tasks emptyDb 1 HttpMethod.get "Test Prep"
      (AIOutcome.responded [wGenLinkTask]) CollegeAIOutcome.failure 5 =
      ((generate_and_save_new_test_path emptyDb 1 5
          (AIOutcome.responded [wGenLinkTask])).1,
       Except.ok (JVal.jarr ([SavedTask.mk 1 "Watch a lesson" "background"
         "standard" none false "link" none].map savedTaskToJson))) := by
  obtain ⟨hlist, -⟩ := C7_api_tasks_shape wDb 1 "Test Prep"
    AIOutcome.failure CollegeAIOutcome.failure 9
  obtain ⟨-, hgen⟩ := C7_api_tasks_shape emptyDb 1 "Test Prep"
    (AIOutcome.responded [wGenLinkTask]) CollegeAIOutcome.failure 5
  exact ⟨(hlist (by decide)).1,
    (hgen (by decide) [SavedTask.mk 1 "Watch a lesson" "background"
      "standard" none false "link" none] rfl).1⟩

end Mentics
